import Mathlib

/-!
Shallow embedding of `build_summary_audit` from
`src/modules/ConfigurationAudit/ca_excel_summary.py` of the
RetuningAutomations repository, together with proofs of the audited
properties of its specification.

Tables are modelled as column-oriented datasets of optional string
cells (a `none` cell is a missing/NaN value).  The frequency and
column-resolution primitives live in `src/utils/utils_frequency.py`,
which is not part of the provided sources; they are modelled from the
specification and marked as such in their doc comments.
-/

namespace RetuningAudit

/-! ## Generic list helpers -/

/-- First-occurrence deduplication with an accumulator of already
seen elements. -/
def dedupFirstAux {α : Type} [DecidableEq α] (seen : List α) : List α → List α
  | [] => []
  | x :: xs =>
    if seen.contains x then dedupFirstAux seen xs
    else x :: dedupFirstAux (x :: seen) xs

/-- First-occurrence deduplication, mirroring the semantics of Python
set construction / pandas `unique()` at the level of membership. -/
def dedupFirst {α : Type} [DecidableEq α] (l : List α) : List α :=
  dedupFirstAux [] l

/-- Insert an element into a list, placing it immediately before the
first element `y` with `lt x y`. -/
def insertByLt {α : Type} (lt : α → α → Bool) (x : α) : List α → List α
  | [] => [x]
  | y :: ys => if lt x y then x :: y :: ys else y :: insertByLt lt x ys

/-- Insertion sort parameterised by a strict-placement test; used to
model Python `sorted` and the descending order of `value_counts`. -/
def sortByLt {α : Type} (lt : α → α → Bool) (l : List α) : List α :=
  l.foldr (insertByLt lt) []

/-- Code-point lexicographic comparison of character lists: the order
Python uses to compare strings. -/
def strLtAux : List Char → List Char → Bool
  | [], [] => false
  | [], _ :: _ => true
  | _ :: _, [] => false
  | a :: as, b :: bs =>
    if a.toNat < b.toNat then true
    else if b.toNat < a.toNat then false
    else strLtAux as bs

/-- Python `<` on strings (code-point lexicographic). -/
def pyStrLt (a b : String) : Bool := strLtAux a.data b.data

/-- Python `sorted` on strings (code-point lexicographic ascending). -/
def sortStr (l : List String) : List String :=
  sortByLt pyStrLt l

/-- Python `sorted` on pairs of strings (tuple lexicographic order). -/
def sortStrPairs (l : List (String × String)) : List (String × String) :=
  sortByLt (fun p q => pyStrLt p.1 q.1 || (p.1 == q.1 && pyStrLt p.2 q.2)) l

/-- Python `str.lower`, applied characterwise. -/
def strToLower (s : String) : String := String.mk (s.data.map Char.toLower)

/-- Strip leading and trailing whitespace from a character list
(Python `str.strip`). -/
def trimChars (cs : List Char) : List Char :=
  ((cs.dropWhile (fun c => c.isWhitespace)).reverse.dropWhile
    (fun c => c.isWhitespace)).reverse

/-- Maximal runs of decimal digits occurring in a character list; the
first argument accumulates the (reversed) current run. -/
def digitRunsAux : List Char → List Char → List String
  | cur, [] => if cur.isEmpty then [] else [String.mk cur.reverse]
  | cur, c :: cs =>
    if c.isDigit then digitRunsAux (c :: cur) cs
    else if cur.isEmpty then digitRunsAux [] cs
    else String.mk cur.reverse :: digitRunsAux [] cs

/-- Natural number denoted by a list of decimal digits. -/
def digitsToNat (ds : List Char) : Nat :=
  ds.foldl (fun acc c => acc * 10 + (c.toNat - '0'.toNat)) 0

/-! ## Frequency primitives (modelled from the spec) -/

/-- Modelled from the spec: `parse_int_frequency` of the absent
`src/utils/utils_frequency.py`.  Best-effort parse of a cell value as
an integer frequency: trim whitespace, read the leading digit token
before the first non-numeric separator; absent (`none`) on failure. -/
def parseIntFrequency : Option String → Option Int
  | none => none
  | some s =>
    let cs := trimChars s.data
    let ds := cs.takeWhile (fun c => c.isDigit)
    if ds.isEmpty then none else some (Int.ofNat (digitsToNat ds))

/-- Modelled from the spec: `is_n77_from_string` of the absent
`src/utils/utils_frequency.py`.  True iff the parsed frequency exists
and lies in the inclusive N77 range [646600, 660000]. -/
def isN77FromString (v : Option String) : Bool :=
  match parseIntFrequency v with
  | some f => decide (646600 ≤ f) && decide (f ≤ 660000)
  | none => false

/-- Modelled from the spec: `extract_sync_frequencies` of the absent
`src/utils/utils_frequency.py`.  Extracts all numeric substrings of a
composite reference string and returns them, in their exact textual
form, as a set of strings (here a deduplicated list). -/
def extractSyncFrequencies (s : String) : List String :=
  dedupFirst (digitRunsAux [] s.data)

/-! ## Table model -/

/-- A cell of a table: a string value or a missing value (NaN). -/
abbrev Cell := Option String

/-- A column-oriented table: named columns and rows of cells aligned
with the column list. -/
structure Table where
  cols : List String
  data : List (List Cell)
deriving DecidableEq, Repr

/-- pandas `df.empty`: true when either axis has length zero. -/
def Table.isEmpty (t : Table) : Bool :=
  t.data.isEmpty || t.cols.isEmpty

/-- Value of the cell in column `c` of row `r` (missing when the
column does not exist or the row is too short). -/
def getCell (t : Table) (c : String) (r : List Cell) : Cell :=
  match t.cols.findIdx? (fun col => col == c) with
  | some i => (r.get? i).getD none
  | none => none

/-- pandas `astype(str)` of a single cell: a NaN renders as `"nan"`. -/
def cellToStr (c : Cell) : String := c.getD "nan"

/-- `astype(str).str.strip()` of a single cell. -/
def cellToStrStrip (c : Cell) : String :=
  String.mk (trimChars (cellToStr c).data)

/-- Modelled from the spec: `resolve_column_case_insensitive` of the
absent `src/utils/utils_frequency.py`.  Candidate names are tried in
order; matching is case-insensitive exact match against the table's
column names; returns the first matching table column name. -/
def resolveColumnCaseInsensitive (t : Table) : List String → Option String
  | [] => none
  | c :: rest =>
    match t.cols.find? (fun col => strToLower col == strToLower c) with
    | some col => some col
    | none => resolveColumnCaseInsensitive t rest

/-- Python truthiness of an optional column name (`if node_col and
arfcn_col`): present and non-empty. -/
def colTruthy : Option String → Bool
  | none => false
  | some s => !s.isEmpty

/-! ## Configuration and value predicates -/

/-- The five scalar configuration inputs of `build_summary_audit`; the
two allowed sets are lists (an absent set is the empty list, matching
`allowed_n77_ssb or []`). -/
structure Config where
  oldArfcn : Int
  newArfcn : Int
  n77bSsb : Int
  allowedN77Ssb : List Int
  allowedN77Arfcn : List Int
deriving DecidableEq, Repr

/-- `is_not_old_not_new`: `parse_int_frequency(v) not in (old, new)`;
an absent parse satisfies the predicate. -/
def isNotOldNotNew (cfg : Config) (v : Cell) : Bool :=
  match parseIntFrequency v with
  | none => true
  | some f => decide (f ≠ cfg.oldArfcn) && decide (f ≠ cfg.newArfcn)

/-- `series_only_not_old_not_new`: every value of the series is
neither old nor new. -/
def seriesOnlyNotOldNotNew (cfg : Config) (series : List Cell) : Bool :=
  series.all (isNotOldNotNew cfg)

/-- `is_new`: parsed frequency equals the configured new ARFCN. -/
def isNew (cfg : Config) (v : Cell) : Bool :=
  match parseIntFrequency v with
  | none => false
  | some f => decide (f = cfg.newArfcn)

/-- `is_old`: parsed frequency equals the configured old ARFCN. -/
def isOld (cfg : Config) (v : Cell) : Bool :=
  match parseIntFrequency v with
  | none => false
  | some f => decide (f = cfg.oldArfcn)

/-- `has_value`: the parse is present. -/
def hasValue (v : Cell) : Bool :=
  (parseIntFrequency v).isSome

/-- `is_allowed_n77_ssb`: parsed frequency belongs to the configured
allowed SSB set; false on an absent parse. -/
def isAllowedN77Ssb (cfg : Config) (v : Cell) : Bool :=
  match parseIntFrequency v with
  | none => false
  | some f => cfg.allowedN77Ssb.contains f

/-- `is_allowed_n77_arfcn`: parsed frequency belongs to the configured
allowed ARFCN set; false on an absent parse. -/
def isAllowedN77Arfcn (cfg : Config) (v : Cell) : Bool :=
  match parseIntFrequency v with
  | none => false
  | some f => cfg.allowedN77Arfcn.contains f

/-! ## Report rows -/

/-- The `Value` field of a report row: a count or a message string. -/
inductive RValue where
  | int (n : Int)
  | str (s : String)
deriving DecidableEq, Repr

/-- One row of the summary-audit report. -/
structure ReportRow where
  category : String
  subCategory : String
  metric : String
  value : RValue
  extraInfo : String
deriving DecidableEq, Repr

/-- `", ".join(...)` over a node/cell list. -/
def joinComma (l : List String) : String := String.intercalate ", " l

/-- `"; ".join(...)` over preformatted items. -/
def joinSemi (l : List String) : String := String.intercalate "; " l

/-! ## Shared checker machinery

The checkers repeatedly build `work = df[[node_col, arfcn_col]]` with
the node column stringified, group it by node, and select the sorted
node lists satisfying per-group predicates. -/

/-- `df[[node_col, arfcn_col]]` with `work[node_col] = astype(str)`:
one `(node, arfcn)` pair per row. -/
def workPairs (df : Table) (nodeCol arfcnCol : String) :
    List (String × Cell) :=
  df.data.map (fun r => (cellToStr (getCell df nodeCol r), getCell df arfcnCol r))

/-- `work.groupby(node_col)[arfcn_col]`: for each distinct node key,
the series of its arfcn cells in row order. -/
def groupsOf (ps : List (String × Cell)) : List (String × List Cell) :=
  (dedupFirst (ps.map Prod.fst)).map
    (fun k => (k, (ps.filter (fun p => p.1 == k)).map Prod.snd))

/-- `sorted(str(node) for node, series in grouped if pred(series))`. -/
def nodesWhere (ps : List (String × Cell)) (pred : List Cell → Bool) :
    List String :=
  sortStr (((groupsOf ps).filter (fun g => pred g.2)).map Prod.fst)

/-- `sorted(set(a) & set(b))` for string lists. -/
def interSorted (a b : List String) : List String :=
  sortStr (dedupFirst (a.filter (fun x => b.contains x)))

/-- `sorted(set(a) - set(b))` for string lists. -/
def diffSorted (a b : List String) : List String :=
  sortStr (dedupFirst (a.filter (fun x => !(b.contains x))))

/-! ## Checker: NRFrequency (`process_nr_freq`) -/

/-- The N77-filtered `(node, arfcn)` working set of `process_nr_freq`
(and structurally of `process_nr_freq_rel`). -/
def nrFreqN77Pairs (df : Table) (nc ac : String) : List (String × Cell) :=
  (workPairs df nc ac).filter (fun p => isN77FromString p.2)

/-- `process_nr_freq`: old/new ARFCN presence per node on the
N77-filtered NRFrequency table. -/
def processNrFreq (cfg : Config) (dfo : Option Table) : List ReportRow :=
  match dfo with
  | none =>
    [⟨"NR Frequency Audit", "NRFrequency", "NRFrequency table",
      .str "Table not found or empty", ""⟩]
  | some df =>
    if df.isEmpty then
      [⟨"NR Frequency Audit", "NRFrequency", "NRFrequency table",
        .str "Table not found or empty", ""⟩]
    else
      let nodeColO := resolveColumnCaseInsensitive df ["NodeId"]
      let arfcnColO := resolveColumnCaseInsensitive df
        ["arfcnValueNRDl", "NRFrequencyId", "nRFrequencyId"]
      if colTruthy nodeColO && colTruthy arfcnColO then
        let nc := nodeColO.getD ""
        let ac := arfcnColO.getD ""
        let n77work := nrFreqN77Pairs df nc ac
        if n77work.isEmpty then
          [⟨"NR Frequency Audit", "NRFrequency",
            "NRFrequency table has no N77 rows", .int 0, ""⟩]
        else
          let o := toString cfg.oldArfcn
          let n := toString cfg.newArfcn
          let allNodesWithFreq := sortStr (dedupFirst
            ((df.data.filter (fun r => hasValue (getCell df ac r))).map
              (fun r => cellToStr (getCell df nc r))))
          let oldNodes := nodesWhere n77work (fun series => series.any (isOld cfg))
          let newNodes := nodesWhere n77work (fun series => series.any (isNew cfg))
          let nodesOldAndNew := interSorted oldNodes newNodes
          let nodesOldWithoutNew := diffSorted oldNodes newNodes
          let notOldNotNewNodes := nodesWhere n77work (seriesOnlyNotOldNotNew cfg)
          [⟨"NR Frequency Audit", "NRFrequency",
            "NR nodes with ARFCN defined in NRFrequency",
            .int allNodesWithFreq.length, joinComma allNodesWithFreq⟩,
           ⟨"NR Frequency Audit", "NRFrequency",
            "NR nodes with the old ARFCN (" ++ o ++ ") in NRFrequency",
            .int oldNodes.length, joinComma oldNodes⟩,
           ⟨"NR Frequency Audit", "NRFrequency",
            "NR nodes with the new ARFCN (" ++ n ++ ") in NRFrequency",
            .int newNodes.length, joinComma newNodes⟩,
           ⟨"NR Frequency Audit", "NRFrequency",
            "NR nodes with both, the old ARFCN (" ++ o ++ ") and the new ARFCN ("
              ++ n ++ ") in NRFrequency",
            .int nodesOldAndNew.length, joinComma nodesOldAndNew⟩,
           ⟨"NR Frequency Inconsistencies", "NRFrequency",
            "NR nodes with the old ARFCN (" ++ o ++ ") but without the new ARFCN ("
              ++ n ++ ") in NRFrequency",
            .int nodesOldWithoutNew.length, joinComma nodesOldWithoutNew⟩,
           ⟨"NR Frequency Inconsistencies", "NRFrequency",
            "NR nodes with the ARFCN not in (" ++ o ++ ", " ++ n ++ ") in NRFrequency",
            .int notOldNotNewNodes.length, joinComma notOldNotNewNodes⟩]
      else
        [⟨"NR Frequency Audit", "NRFrequency",
          "NRFrequency table present but required columns missing",
          .str "N/A", ""⟩]

/-! ## Checker: NRFreqRelation (`process_nr_freq_rel`) -/

/-- Node-level N77 working set of `process_nr_freq_rel`. -/
def nrFreqRelN77Pairs (df : Table) (nc ac : String) : List (String × Cell) :=
  (workPairs df nc ac).filter (fun p => isN77FromString p.2)

/-- `old_nodes` of `process_nr_freq_rel`: sorted nodes whose N77
series contains the old ARFCN. -/
def nrFreqRelOldNodes (cfg : Config) (df : Table) (nc ac : String) : List String :=
  nodesWhere (nrFreqRelN77Pairs df nc ac) (fun series => series.any (isOld cfg))

/-- `new_nodes` of `process_nr_freq_rel`. -/
def nrFreqRelNewNodes (cfg : Config) (df : Table) (nc ac : String) : List String :=
  nodesWhere (nrFreqRelN77Pairs df nc ac) (fun series => series.any (isNew cfg))

/-- `nodes_old_and_new = sorted(old_set & new_set)`. -/
def nrFreqRelBothNodes (cfg : Config) (df : Table) (nc ac : String) : List String :=
  interSorted (nrFreqRelOldNodes cfg df nc ac) (nrFreqRelNewNodes cfg df nc ac)

/-- `nodes_old_without_new = sorted(old_set - new_set)`. -/
def nrFreqRelOldWithoutNewNodes (cfg : Config) (df : Table) (nc ac : String) :
    List String :=
  diffSorted (nrFreqRelOldNodes cfg df nc ac) (nrFreqRelNewNodes cfg df nc ac)

/-- Cell-level part of `process_nr_freq_rel`: cell presence under both
ARFCNs and the parameter-equality check.  The helper column
`_arfcn_int_` that the code adds to `full_n77` (and does not list in
`cols_to_ignore`) is carried as the second component of the projected
row; the kept source columns, sorted alphabetically, form the first. -/
def nrFreqRelCellPart (cfg : Config) (df : Table) (nodeCol arfcnCol : String) :
    List ReportRow :=
  let cellColO := resolveColumnCaseInsensitive df ["NRCellCUId", "NRCellId", "CellId"]
  if colTruthy cellColO then
    let cellCol := cellColO.getD ""
    let o := toString cfg.oldArfcn
    let n := toString cfg.newArfcn
    let fullN77 := df.data.filter (fun r => isN77FromString (getCell df arfcnCol r))
    let arfcnInt := fun r => parseIntFrequency (getCell df arfcnCol r)
    let cellsWithOld := (fullN77.filter
      (fun r => arfcnInt r == some cfg.oldArfcn)).map
        (fun r => cellToStr (getCell df cellCol r))
    let cellsWithNew := (fullN77.filter
      (fun r => arfcnInt r == some cfg.newArfcn)).map
        (fun r => cellToStr (getCell df cellCol r))
    let cellsBoth := interSorted cellsWithOld cellsWithNew
    let cellsOldWithoutNew := diffSorted cellsWithOld cellsWithNew
    let keptCols := sortStr (df.cols.filter (fun c =>
      !(c == arfcnCol) &&
      !((strToLower c == "nrfreqrelationid") || (strToLower c == "nrfrequencyref")
        || (strToLower c == "reservedby"))))
    let projRow : List Cell → (List Cell × Option Int) := fun r =>
      (keptCols.map (fun c =>
        if c == nodeCol || c == cellCol then some (cellToStr (getCell df c r))
        else getCell df c r), arfcnInt r)
    let badCellsParams := sortStr (dedupFirst (cellsBoth.filter (fun cellId =>
      let cellRows := fullN77.filter
        (fun r => cellToStr (getCell df cellCol r) == cellId)
      let oldRows := cellRows.filter (fun r => arfcnInt r == some cfg.oldArfcn)
      let newRows := cellRows.filter (fun r => arfcnInt r == some cfg.newArfcn)
      if oldRows.isEmpty || newRows.isEmpty then false
      else decide (dedupFirst (oldRows.map projRow) ≠ dedupFirst (newRows.map projRow)))))
    [⟨"NR Frequency Audit", "NRFreqRelation",
      "NR cells with the old ARFCN (" ++ o ++ ") and the new ARFCN (" ++ n
        ++ ") in NRFreqRelation",
      .int cellsBoth.length, joinComma cellsBoth⟩,
     ⟨"NR Frequency Inconsistencies", "NRFreqRelation",
      "NR cells with the old ARFCN (" ++ o ++ ") but without new ARFCN (" ++ n
        ++ ") in NRFreqRelation",
      .int cellsOldWithoutNew.length, joinComma cellsOldWithoutNew⟩,
     ⟨"NR Frequency Inconsistencies", "NRFreqRelation",
      "NR cells with mismatching params between old ARFCN (" ++ o
        ++ ") and the new ARFCN (" ++ n ++ ") in NRFreqRelation",
      .int badCellsParams.length, joinComma badCellsParams⟩]
  else
    [⟨"NR Frequency Audit", "NRFreqRelation",
      "NRFreqRelation cell-level check skipped (NRCellCUId/NRCellId/CellId missing)",
      .str "N/A", ""⟩]

/-- `process_nr_freq_rel`: node-level old/new presence plus the
cell-level checks, on the N77-filtered NRFreqRelation table. -/
def processNrFreqRel (cfg : Config) (dfo : Option Table) : List ReportRow :=
  match dfo with
  | none =>
    [⟨"NR Frequency Audit", "NRFreqRelation", "NRFreqRelation table",
      .str "Table not found or empty", ""⟩]
  | some df =>
    if df.isEmpty then
      [⟨"NR Frequency Audit", "NRFreqRelation", "NRFreqRelation table",
        .str "Table not found or empty", ""⟩]
    else
      let nodeColO := resolveColumnCaseInsensitive df ["NodeId"]
      let arfcnColO := resolveColumnCaseInsensitive df ["NRFreqRelationId"]
      if colTruthy nodeColO && colTruthy arfcnColO then
        let nc := nodeColO.getD ""
        let ac := arfcnColO.getD ""
        let n77work := nrFreqRelN77Pairs df nc ac
        if n77work.isEmpty then
          [⟨"NR Frequency Audit", "NRFreqRelation",
            "NRFreqRelation table has no N77 rows", .int 0, ""⟩]
        else
          let o := toString cfg.oldArfcn
          let n := toString cfg.newArfcn
          let oldNodes := nrFreqRelOldNodes cfg df nc ac
          let newNodes := nrFreqRelNewNodes cfg df nc ac
          let nodesOldAndNew := nrFreqRelBothNodes cfg df nc ac
          let nodesOldWithoutNew := nrFreqRelOldWithoutNewNodes cfg df nc ac
          let notOldNotNewNodes := nodesWhere n77work (seriesOnlyNotOldNotNew cfg)
          [⟨"NR Frequency Audit", "NRFreqRelation",
            "NR nodes with the old ARFCN (" ++ o ++ ") in NRFreqRelation",
            .int oldNodes.length, joinComma oldNodes⟩,
           ⟨"NR Frequency Audit", "NRFreqRelation",
            "NR nodes with the new ARFCN (" ++ n ++ ") in NRFreqRelation",
            .int newNodes.length, joinComma newNodes⟩,
           ⟨"NR Frequency Audit", "NRFreqRelation",
            "NR nodes with both, the old ARFCN (" ++ o ++ ") and the new ARFCN ("
              ++ n ++ ") in NRFreqRelation",
            .int nodesOldAndNew.length, joinComma nodesOldAndNew⟩,
           ⟨"NR Frequency Inconsistencies", "NRFreqRelation",
            "NR nodes with the old ARFCN (" ++ o ++ ") but without the new ARFCN ("
              ++ n ++ ") in NRFreqRelation",
            .int nodesOldWithoutNew.length, joinComma nodesOldWithoutNew⟩,
           ⟨"NR Frequency Inconsistencies", "NRFreqRelation",
            "NR nodes with the ARFCN not in (" ++ o ++ ", " ++ n ++ ") in NRFreqRelation",
            .int notOldNotNewNodes.length, joinComma notOldNotNewNodes⟩]
          ++ nrFreqRelCellPart cfg df nc ac
      else
        [⟨"NR Frequency Audit", "NRFreqRelation",
          "NRFreqRelation table present but ARFCN/NodeId missing",
          .str "N/A", ""⟩]

/-! ## Checker: NRSectorCarrier (`process_nr_sector_carrier`) -/

/-- `process_nr_sector_carrier`: N77 node detection plus the
allowed-ARFCN inconsistency check. -/
def processNrSectorCarrier (cfg : Config) (dfo : Option Table) : List ReportRow :=
  match dfo with
  | none =>
    [⟨"NR Frequency Audit", "NRSectorCarrier", "NRSectorCarrier table",
      .str "Table not found or empty", ""⟩]
  | some df =>
    if df.isEmpty then
      [⟨"NR Frequency Audit", "NRSectorCarrier", "NRSectorCarrier table",
        .str "Table not found or empty", ""⟩]
    else
      let nodeColO := resolveColumnCaseInsensitive df ["NodeId"]
      let arfcnColO := resolveColumnCaseInsensitive df ["arfcnDL"]
      if colTruthy nodeColO && colTruthy arfcnColO then
        let nc := nodeColO.getD ""
        let ac := arfcnColO.getD ""
        let work := df.data.map
          (fun r => (cellToStrStrip (getCell df nc r), getCell df ac r))
        let n77rows := work.filter (fun p => isN77FromString p.2)
        let n77nodes := sortStr (dedupFirst (n77rows.map Prod.fst))
        let auditRow : ReportRow :=
          ⟨"NR Frequency Audit", "NRSectorCarrier",
           "NR nodes with ARFCN in N77 band (646600-660000) in NRSectorCarrier",
           .int n77nodes.length, joinComma n77nodes⟩
        if !cfg.allowedN77Arfcn.isEmpty then
          let badRows := n77rows.filter (fun p => !(isAllowedN77Arfcn cfg p.2))
          let badNodes := sortStr (dedupFirst (badRows.map Prod.fst))
          let uniquePairs := sortStrPairs (dedupFirst (badRows.map
            (fun p => (String.mk (trimChars p.1.data), cellToStrStrip p.2))))
          let extra := joinSemi (uniquePairs.map (fun p => p.1 ++ ": " ++ p.2))
          [auditRow,
           ⟨"NR Frequency Inconsistencies", "NRSectorCarrier",
            "NR nodes with ARFCN not in allowed list (from NRSectorCarrier table)",
            .int badNodes.length, extra⟩]
        else
          [auditRow,
           ⟨"NR Frequency Inconsistencies", "NRSectorCarrier",
            "NR nodes with ARFCN not in allowed list (no allowed list configured)",
            .str "N/A", ""⟩]
      else
        [⟨"NR Frequency Audit", "NRSectorCarrier",
          "NRSectorCarrier table present but required columns missing",
          .str "N/A", ""⟩]

/-! ## Checker: NRCellDU (`process_nr_cell_du`) -/

/-- `process_nr_cell_du`: nodes with an SSB frequency in the N77 band. -/
def processNrCellDu (dfo : Option Table) : List ReportRow :=
  match dfo with
  | none =>
    [⟨"NR Frequency Audit", "NRCellDU", "NRCellDU table",
      .str "Table not found or empty", ""⟩]
  | some df =>
    if df.isEmpty then
      [⟨"NR Frequency Audit", "NRCellDU", "NRCellDU table",
        .str "Table not found or empty", ""⟩]
    else
      let nodeColO := resolveColumnCaseInsensitive df ["NodeId"]
      let ssbColO := resolveColumnCaseInsensitive df ["ssbFrequency"]
      if colTruthy nodeColO && colTruthy ssbColO then
        let nc := nodeColO.getD ""
        let sc := ssbColO.getD ""
        let uniqueNodes := sortStr (dedupFirst
          ((df.data.filter (fun r => isN77FromString (getCell df sc r))).map
            (fun r => cellToStrStrip (getCell df nc r))))
        [⟨"NR Frequency Audit", "NRCellDU",
          "NR nodes with SSB in N77 band (646600-660000) in NRCellDU",
          .int uniqueNodes.length, joinComma uniqueNodes⟩]
      else
        [⟨"NR Frequency Audit", "NRCellDU",
          "NRCellDU table present but required columns missing",
          .str "N/A", ""⟩]

/-! ## Checker: FreqPrioNR (`process_freq_prio_nr`) -/

/-- `process_freq_prio_nr`: RATFreqPrioId roles on N77 rows. -/
def processFreqPrioNr (dfo : Option Table) : List ReportRow :=
  match dfo with
  | none =>
    [⟨"NR Frequency Audit", "FreqPrioNR", "FreqPrioNR table",
      .str "Table not found or empty", ""⟩]
  | some df =>
    if df.isEmpty then
      [⟨"NR Frequency Audit", "FreqPrioNR", "FreqPrioNR table",
        .str "Table not found or empty", ""⟩]
    else
      let nodeColO := resolveColumnCaseInsensitive df ["NodeId"]
      let freqColO := resolveColumnCaseInsensitive df ["FreqPrioNRId"]
      let ratColO := resolveColumnCaseInsensitive df ["RATFreqPrioId"]
      if colTruthy nodeColO && colTruthy freqColO && colTruthy ratColO then
        let nc := nodeColO.getD ""
        let fc := freqColO.getD ""
        let rc := ratColO.getD ""
        let work := df.data.map (fun r =>
          (cellToStrStrip (getCell df nc r), getCell df fc r,
           strToLower (cellToStrStrip (getCell df rc r))))
        let n77work := work.filter (fun p => isN77FromString p.2.1)
        if n77work.isEmpty then
          [⟨"NR Frequency Audit", "FreqPrioNR",
            "FreqPrioNR table has no N77 rows (based on FreqPrioNRId)",
            .int 0, ""⟩]
        else
          let fwaNodes := sortStr (dedupFirst
            ((n77work.filter (fun p => p.2.2 == "fwa")).map Prod.fst))
          let publicSafetyNodes := sortStr (dedupFirst
            ((n77work.filter (fun p => p.2.2 == "publicsafety")).map Prod.fst))
          let otherNodes := sortStr (dedupFirst
            ((n77work.filter (fun p =>
              !((p.2.2 == "fwa") || (p.2.2 == "publicsafety")))).map Prod.fst))
          [⟨"NR Frequency Audit", "FreqPrioNR",
            "NR nodes with RATFreqPrioId = 'fwa' in N77 FreqPrioNR",
            .int fwaNodes.length, joinComma fwaNodes⟩,
           ⟨"NR Frequency Audit", "FreqPrioNR",
            "NR nodes with RATFreqPrioId = 'publicsafety' in N77 FreqPrioNR",
            .int publicSafetyNodes.length, joinComma publicSafetyNodes⟩,
           ⟨"NR Frequency Inconsistencies", "FreqPrioNR",
            "NR nodes with RATFreqPrioId different from 'fwa'/'publicsafety' in N77 FreqPrioNR",
            .int otherNodes.length, joinComma otherNodes⟩]
      else
        [⟨"NR Frequency Audit", "FreqPrioNR",
          "FreqPrioNR table present but NodeId/FreqPrioNRId/RATFreqPrioId missing",
          .str "N/A", ""⟩]

/-! ## Checker: GUtranSyncSignalFrequency (`process_gu_sync_signal_freq`) -/

/-- `process_gu_sync_signal_freq`: old/new ARFCN presence per LTE
node, over the whole table (no N77 pre-filter). -/
def processGuSyncSignalFreq (cfg : Config) (dfo : Option Table) : List ReportRow :=
  match dfo with
  | none =>
    [⟨"LTE Frequency Audit", "GUtranSyncSignalFrequency",
      "GUtranSyncSignalFrequency table", .str "Table not found or empty", ""⟩]
  | some df =>
    if df.isEmpty then
      [⟨"LTE Frequency Audit", "GUtranSyncSignalFrequency",
        "GUtranSyncSignalFrequency table", .str "Table not found or empty", ""⟩]
    else
      let nodeColO := resolveColumnCaseInsensitive df ["NodeId"]
      let arfcnColO := resolveColumnCaseInsensitive df ["arfcn", "arfcnDL"]
      if colTruthy nodeColO && colTruthy arfcnColO then
        let nc := nodeColO.getD ""
        let ac := arfcnColO.getD ""
        let o := toString cfg.oldArfcn
        let n := toString cfg.newArfcn
        let work := workPairs df nc ac
        let allNodesWithFreq := sortStr (dedupFirst
          ((work.filter (fun p => hasValue p.2)).map Prod.fst))
        let oldNodes := nodesWhere work (fun series => series.any (isOld cfg))
        let newNodes := nodesWhere work (fun series => series.any (isNew cfg))
        let nodesOldAndNew := interSorted oldNodes newNodes
        let nodesOldWithoutNew := diffSorted oldNodes newNodes
        let notOldNotNewNodes := nodesWhere work (seriesOnlyNotOldNotNew cfg)
        [⟨"LTE Frequency Audit", "GUtranSyncSignalFrequency",
          "LTE nodes with GUtranSyncSignalFrequency defined:",
          .int allNodesWithFreq.length, joinComma allNodesWithFreq⟩,
         ⟨"LTE Frequency Audit", "GUtranSyncSignalFrequency",
          "LTE nodes with the old ARFCN (" ++ o ++ ") in GUtranSyncSignalFrequency",
          .int oldNodes.length, joinComma oldNodes⟩,
         ⟨"LTE Frequency Audit", "GUtranSyncSignalFrequency",
          "LTE nodes with the new ARFCN (" ++ n ++ ") in GUtranSyncSignalFrequency",
          .int newNodes.length, joinComma newNodes⟩,
         ⟨"LTE Frequency Audit", "GUtranSyncSignalFrequency",
          "LTE nodes with both, the old ARFCN (" ++ o ++ ") and the new ARFCN ("
            ++ n ++ ") in GUtranSyncSignalFrequency",
          .int nodesOldAndNew.length, joinComma nodesOldAndNew⟩,
         ⟨"LTE Frequency Inconsistences", "GUtranSyncSignalFrequency",
          "LTE nodes with the old ARFCN (" ++ o ++ ") but without the new ARFCN ("
            ++ n ++ ") in GUtranSyncSignalFrequency",
          .int nodesOldWithoutNew.length, joinComma nodesOldWithoutNew⟩,
         ⟨"LTE Frequency Inconsistences", "GUtranSyncSignalFrequency",
          "LTE nodes with the ARFCN not in (" ++ o ++ ", " ++ n
            ++ ") in GUtranSyncSignalFrequency",
          .int notOldNotNewNodes.length, joinComma notOldNotNewNodes⟩]
      else
        [⟨"LTE Frequency Audit", "GUtranSyncSignalFrequency",
          "GUtranSyncSignalFrequency table present but required columns missing",
          .str "N/A", ""⟩]

/-! ## Checker: GUtranFreqRelation (`process_gu_freq_rel`) -/

/-- Cell-level part of `process_gu_freq_rel`: exact composite-string
matches against `"<old>-30-20-0-1"` / `"<new>-30-20-0-1"` plus the
LTE parameter-equality check (the arfcn column is stringified by the
code before matching). -/
def guFreqRelCellPart (cfg : Config) (df : Table) (nodeCol arfcnCol : String) :
    List ReportRow :=
  let cellColO := resolveColumnCaseInsensitive df
    ["EUtranCellFDDId", "EUtranCellId", "CellId", "GUCellId"]
  let expectedOldRelId := toString cfg.oldArfcn ++ "-30-20-0-1"
  let expectedNewRelId := toString cfg.newArfcn ++ "-30-20-0-1"
  if colTruthy cellColO then
    let cellCol := cellColO.getD ""
    let arfcnStr := fun r => cellToStr (getCell df arfcnCol r)
    let cellsWithOld := (df.data.filter
      (fun r => arfcnStr r == expectedOldRelId)).map
        (fun r => cellToStr (getCell df cellCol r))
    let cellsWithNew := (df.data.filter
      (fun r => arfcnStr r == expectedNewRelId)).map
        (fun r => cellToStr (getCell df cellCol r))
    let cellsBoth := interSorted cellsWithOld cellsWithNew
    let cellsOldWithoutNew := diffSorted cellsWithOld cellsWithNew
    let keptCols := sortStr (df.cols.filter (fun c =>
      !(c == arfcnCol) &&
      !((strToLower c == "gutranfreqrelationid")
        || (strToLower c == "gutransyncsignalfrequencyref"))))
    let projRow : List Cell → List Cell := fun r =>
      keptCols.map (fun c =>
        if c == nodeCol || c == cellCol || c == arfcnCol then
          some (cellToStr (getCell df c r))
        else getCell df c r)
    let badCellsParams := sortStr (dedupFirst (cellsBoth.filter (fun cellId =>
      let cellRows := df.data.filter
        (fun r => cellToStr (getCell df cellCol r) == cellId)
      let oldRows := cellRows.filter (fun r => arfcnStr r == expectedOldRelId)
      let newRows := cellRows.filter (fun r => arfcnStr r == expectedNewRelId)
      if oldRows.isEmpty || newRows.isEmpty then false
      else decide (dedupFirst (oldRows.map projRow) ≠ dedupFirst (newRows.map projRow)))))
    [⟨"LTE Frequency Audit", "GUtranFreqRelation",
      "LTE cells with GUtranFreqRelationId " ++ expectedOldRelId ++ " and "
        ++ expectedNewRelId ++ " in GUtranFreqRelation",
      .int cellsBoth.length, joinComma cellsBoth⟩,
     ⟨"LTE Frequency Inconsistences", "GUtranFreqRelation",
      "LTE cells with GUtranFreqRelationId " ++ expectedOldRelId ++ " but without "
        ++ expectedNewRelId ++ " in GUtranFreqRelation",
      .int cellsOldWithoutNew.length, joinComma cellsOldWithoutNew⟩,
     ⟨"LTE Frequency Inconsistences", "GUtranFreqRelation",
      "LTE cells with mismatching params between GUtranFreqRelationId "
        ++ expectedOldRelId ++ " and " ++ expectedNewRelId ++ " in GUtranFreqRelation",
      .int badCellsParams.length, joinComma badCellsParams⟩]
  else
    [⟨"LTE Frequency Audit", "GUtranFreqRelation",
      "GUtranFreqRelation cell-level check skipped (EUtranCellFDDId/EUtranCellId/CellId/GUCellId missing)",
      .str "N/A", ""⟩]

/-- `process_gu_freq_rel`: node-level old/new presence (no N77
pre-filter) plus the cell-level composite-string checks. -/
def processGuFreqRel (cfg : Config) (dfo : Option Table) : List ReportRow :=
  match dfo with
  | none =>
    [⟨"LTE Frequency Audit", "GUtranFreqRelation", "GUtranFreqRelation table",
      .str "Table not found or empty", ""⟩]
  | some df =>
    if df.isEmpty then
      [⟨"LTE Frequency Audit", "GUtranFreqRelation", "GUtranFreqRelation table",
        .str "Table not found or empty", ""⟩]
    else
      let nodeColO := resolveColumnCaseInsensitive df ["NodeId"]
      let arfcnColO := resolveColumnCaseInsensitive df
        ["GUtranFreqRelationId", "gUtranFreqRelationId"]
      if colTruthy nodeColO && colTruthy arfcnColO then
        let nc := nodeColO.getD ""
        let ac := arfcnColO.getD ""
        let o := toString cfg.oldArfcn
        let n := toString cfg.newArfcn
        let work := workPairs df nc ac
        let oldNodes := nodesWhere work (fun series => series.any (isOld cfg))
        let newNodes := nodesWhere work (fun series => series.any (isNew cfg))
        let nodesOldAndNew := interSorted oldNodes newNodes
        let nodesOldWithoutNew := diffSorted oldNodes newNodes
        let notOldNotNewNodes := nodesWhere work (seriesOnlyNotOldNotNew cfg)
        [⟨"LTE Frequency Audit", "GUtranFreqRelation",
          "LTE nodes with the old ARFCN (" ++ o ++ ") in GUtranFreqRelation",
          .int oldNodes.length, joinComma oldNodes⟩,
         ⟨"LTE Frequency Audit", "GUtranFreqRelation",
          "LTE nodes with the new ARFCN (" ++ n ++ ") in GUtranFreqRelation",
          .int newNodes.length, joinComma newNodes⟩,
         ⟨"LTE Frequency Audit", "GUtranFreqRelation",
          "LTE nodes with both, the old ARFCN (" ++ o ++ ") and the new ARFCN ("
            ++ n ++ ") in GUtranFreqRelation",
          .int nodesOldAndNew.length, joinComma nodesOldAndNew⟩,
         ⟨"LTE Frequency Inconsistences", "GUtranFreqRelation",
          "LTE nodes with the old ARFCN (" ++ o ++ ") but without the new ARFCN ("
            ++ n ++ ") in GUtranFreqRelation",
          .int nodesOldWithoutNew.length, joinComma nodesOldWithoutNew⟩,
         ⟨"LTE Frequency Inconsistences", "GUtranFreqRelation",
          "LTE nodes with the ARFCN not in (" ++ o ++ ", " ++ n
            ++ ") in GUtranFreqRelation",
          .int notOldNotNewNodes.length, joinComma notOldNotNewNodes⟩]
        ++ guFreqRelCellPart cfg df nc ac
      else
        [⟨"LTE Frequency Audit", "GUtranFreqRelation",
          "GUtranFreqRelation table present but ARFCN/NodeId missing",
          .str "N/A", ""⟩]

/-! ## Checker: EndcDistrProfile (`process_endc_distr_profile`) -/

/-- `mask_old_pair` of `process_endc_distr_profile`: the embedded
frequency set of the reference contains both the old ARFCN and the
N77B SSB (compared as strings). -/
def endcMaskOld (cfg : Config) (ref : String) : Bool :=
  let s := extractSyncFrequencies ref
  s.contains (toString cfg.oldArfcn) && s.contains (toString cfg.n77bSsb)

/-- `mask_new_pair`: the embedded frequency set contains both the new
ARFCN and the N77B SSB. -/
def endcMaskNew (cfg : Config) (ref : String) : Bool :=
  let s := extractSyncFrequencies ref
  s.contains (toString cfg.newArfcn) && s.contains (toString cfg.n77bSsb)

/-- `mask_inconsistent`: neither old nor new ARFCN is embedded, or the
N77B SSB is not embedded. -/
def endcMaskIncons (cfg : Config) (ref : String) : Bool :=
  let s := extractSyncFrequencies ref
  (!(s.contains (toString cfg.oldArfcn)) && !(s.contains (toString cfg.newArfcn)))
    || !(s.contains (toString cfg.n77bSsb))

/-- `work = df[[node_col, ref_col]].astype(str)` of
`process_endc_distr_profile`: one `(node, ref)` pair per row. -/
def endcPairs (df : Table) (nc rc : String) : List (String × String) :=
  df.data.map (fun r =>
    (cellToStr (getCell df nc r), cellToStr (getCell df rc r)))

/-- `old_nodes`: sorted unique nodes of rows whose reference embeds
the old ARFCN together with the N77B SSB. -/
def endcOldNodes (cfg : Config) (df : Table) (nc rc : String) : List String :=
  sortStr (dedupFirst
    (((endcPairs df nc rc).filter (fun p => endcMaskOld cfg p.2)).map Prod.fst))

/-- `new_nodes`: sorted unique nodes of rows whose reference embeds
the new ARFCN together with the N77B SSB. -/
def endcNewNodes (cfg : Config) (df : Table) (nc rc : String) : List String :=
  sortStr (dedupFirst
    (((endcPairs df nc rc).filter (fun p => endcMaskNew cfg p.2)).map Prod.fst))

/-- `bad_nodes`: sorted unique nodes of inconsistent rows. -/
def endcBadNodes (cfg : Config) (df : Table) (nc rc : String) : List String :=
  sortStr (dedupFirst
    (((endcPairs df nc rc).filter (fun p => endcMaskIncons cfg p.2)).map Prod.fst))

/-- `process_endc_distr_profile`: classify embedded gUtranFreqRef
frequency sets per node. -/
def processEndcDistrProfile (cfg : Config) (dfo : Option Table) : List ReportRow :=
  match dfo with
  | none =>
    [⟨"EndcDistrProfile Audit", "EndcDistrProfile", "EndcDistrProfile table",
      .str "Table not found or empty", ""⟩]
  | some df =>
    if df.isEmpty then
      [⟨"EndcDistrProfile Audit", "EndcDistrProfile", "EndcDistrProfile table",
        .str "Table not found or empty", ""⟩]
    else
      let nodeColO := resolveColumnCaseInsensitive df ["NodeId"]
      let refColO := resolveColumnCaseInsensitive df ["gUtranFreqRef"]
      if colTruthy nodeColO && colTruthy refColO then
        let nc := nodeColO.getD ""
        let rc := refColO.getD ""
        let o := toString cfg.oldArfcn
        let n := toString cfg.newArfcn
        let b := toString cfg.n77bSsb
        let oldNodes := endcOldNodes cfg df nc rc
        let newNodes := endcNewNodes cfg df nc rc
        let badNodes := endcBadNodes cfg df nc rc
        [⟨"EndcDistrProfile Audit", "EndcDistrProfile",
          "Nodes with gUtranFreqRef containing " ++ o ++ " and " ++ b
            ++ " in EndcDistrProfile",
          .int oldNodes.length, joinComma oldNodes⟩,
         ⟨"EndcDistrProfile Audit", "EndcDistrProfile",
          "Nodes with gUtranFreqRef containing " ++ n ++ " and " ++ b
            ++ " in EndcDistrProfile",
          .int newNodes.length, joinComma newNodes⟩,
         ⟨"EndcDistrProfile Inconsistencies", "EndcDistrProfile",
          "Nodes with gUtranFreqRef not containing (" ++ o ++ " or " ++ n
            ++ ") together with " ++ b ++ " in EndcDistrProfile",
          .int badNodes.length, joinComma badNodes⟩]
      else
        [⟨"EndcDistrProfile Audit", "EndcDistrProfile",
          "EndcDistrProfile table present but NodeId/gUtranFreqRef missing",
          .str "N/A", ""⟩]

/-! ## Checker: cardinality limits (`process_cardinalities`)

The four cardinality sections of `process_cardinalities` are
copy-pastes of one block, parameterised by the counted column, the
limit and the metric texts; they are embedded through one shared
block definition with the four instantiations below. -/

/-- `value_counts(dropna=False)`: count per distinct value, ordered by
descending count (ties in first-occurrence order). -/
def countsOf {α : Type} [DecidableEq α] (vals : List α) : List (α × Nat) :=
  sortByLt (fun x y => decide (y.2 ≤ x.2))
    ((dedupFirst vals).map (fun k => (k, vals.count k)))

/-- `int(counts.max()) if not counts.empty else 0`. -/
def cardMax {α : Type} [DecidableEq α] (vals : List α) : Nat :=
  (countsOf vals).foldr (fun p m => max p.2 m) 0

/-- `at_limit_or_above`, replaced by the maximum achievers when no
count reaches the limit and the maximum is positive. -/
def cardAuditSel {α : Type} [DecidableEq α] (limit : Nat) (vals : List α) :
    List (α × Nat) :=
  let counts := countsOf vals
  let atLimitOrAbove := counts.filter (fun p => decide (limit ≤ p.2))
  if atLimitOrAbove.isEmpty && decide (0 < cardMax vals) then
    counts.filter (fun p => p.2 == cardMax vals)
  else atLimitOrAbove

/-- `at_limit = counts[counts == limit]`. -/
def cardAtLimit {α : Type} [DecidableEq α] (limit : Nat) (vals : List α) :
    List (α × Nat) :=
  (countsOf vals).filter (fun p => p.2 == limit)

/-- `"; ".join(f"{idx}: {cnt}" ...)`. -/
def renderCounts {α : Type} (fmt : α → String) (l : List (α × Nat)) : String :=
  joinSemi (l.map (fun p => fmt p.1 ++ ": " ++ toString p.2))

/-- One cardinality section: the audit row (maximum observed count and
worst offenders) and the inconsistencies row (identifiers exactly at
the limit). -/
def cardinalityBlock {α : Type} [DecidableEq α] (fmt : α → String)
    (mAudit mIncons : String) (limit : Nat) (vals : List α) : List ReportRow :=
  [⟨"Cardinality Audit", "Cardinality", mAudit,
    .int (Int.ofNat (cardMax vals)), renderCounts fmt (cardAuditSel limit vals)⟩,
   ⟨"Cardinality Inconsistencies", "Cardinality", mIncons,
    .int (Int.ofNat (cardAtLimit limit vals).length),
    renderCounts fmt (cardAtLimit limit vals)⟩]

/-- Cardinality section 1: max 16 NRFreqRelation per NR cell (raw
cell-column values, `dropna=False`). -/
def cardNrFreqRel (dfo : Option Table) : List ReportRow :=
  match dfo with
  | none =>
    [⟨"Cardinality Audit", "Cardinality", "NRFreqRelation per cell",
      .str "Table not found or empty", ""⟩]
  | some df =>
    if df.isEmpty then
      [⟨"Cardinality Audit", "Cardinality", "NRFreqRelation per cell",
        .str "Table not found or empty", ""⟩]
    else
      let cellColO := resolveColumnCaseInsensitive df ["NRCellCUId", "NRCellId", "CellId"]
      if colTruthy cellColO then
        let cc := cellColO.getD ""
        cardinalityBlock cellToStr
          "Max NRFreqRelation per NR cell (limit 16)"
          "NR cells with NRFreqRelation count at limit 16"
          16 (df.data.map (getCell df cc))
      else
        [⟨"Cardinality Audit", "Cardinality",
          "NRFreqRelation per cell (required cell column missing)",
          .str "N/A", ""⟩]

/-- Cardinality section 2: max 64 NRFrequency per node (node column
stringified). -/
def cardNrFreq (dfo : Option Table) : List ReportRow :=
  match dfo with
  | none =>
    [⟨"Cardinality Audit", "Cardinality", "NRFrequency per node",
      .str "Table not found or empty", ""⟩]
  | some df =>
    if df.isEmpty then
      [⟨"Cardinality Audit", "Cardinality", "NRFrequency per node",
        .str "Table not found or empty", ""⟩]
    else
      let nodeColO := resolveColumnCaseInsensitive df ["NodeId"]
      if colTruthy nodeColO then
        let nc := nodeColO.getD ""
        cardinalityBlock (fun s => s)
          "Max NRFrequency definitions per node (limit 64)"
          "NR nodes with NRFrequency definitions at limit 64"
          64 (df.data.map (fun r => cellToStr (getCell df nc r)))
      else
        [⟨"Cardinality Audit", "Cardinality",
          "NRFrequency per node (NodeId missing)", .str "N/A", ""⟩]

/-- Cardinality section 3: max 16 GUtranFreqRelation per LTE cell. -/
def cardGuFreqRel (dfo : Option Table) : List ReportRow :=
  match dfo with
  | none =>
    [⟨"Cardinality Audit", "Cardinality", "GUtranFreqRelation per LTE cell",
      .str "Table not found or empty", ""⟩]
  | some df =>
    if df.isEmpty then
      [⟨"Cardinality Audit", "Cardinality", "GUtranFreqRelation per LTE cell",
        .str "Table not found or empty", ""⟩]
    else
      let cellColO := resolveColumnCaseInsensitive df
        ["EUtranCellFDDId", "EUtranCellId", "CellId", "GUCellId"]
      if colTruthy cellColO then
        let cc := cellColO.getD ""
        cardinalityBlock cellToStr
          "Max GUtranFreqRelation per LTE cell (limit 16)"
          "LTE cells with GUtranFreqRelation count at limit 16"
          16 (df.data.map (getCell df cc))
      else
        [⟨"Cardinality Audit", "Cardinality",
          "GUtranFreqRelation per LTE cell (required cell column missing)",
          .str "N/A", ""⟩]

/-- Cardinality section 4: max 24 GUtranSyncSignalFrequency per node. -/
def cardGuSync (dfo : Option Table) : List ReportRow :=
  match dfo with
  | none =>
    [⟨"Cardinality Audit", "Cardinality", "GUtranSyncSignalFrequency per node",
      .str "Table not found or empty", ""⟩]
  | some df =>
    if df.isEmpty then
      [⟨"Cardinality Audit", "Cardinality", "GUtranSyncSignalFrequency per node",
        .str "Table not found or empty", ""⟩]
    else
      let nodeColO := resolveColumnCaseInsensitive df ["NodeId"]
      if colTruthy nodeColO then
        let nc := nodeColO.getD ""
        cardinalityBlock (fun s => s)
          "Max GUtranSyncSignalFrequency definitions per node (limit 24)"
          "LTE nodes with GUtranSyncSignalFrequency definitions at limit 24"
          24 (df.data.map (fun r => cellToStr (getCell df nc r)))
      else
        [⟨"Cardinality Audit", "Cardinality",
          "GUtranSyncSignalFrequency per node (NodeId missing)", .str "N/A", ""⟩]

/-- `process_cardinalities`: the four sections in order. -/
def processCardinalities (nrFreqRel nrFreq guFreqRel guSync : Option Table) :
    List ReportRow :=
  cardNrFreqRel nrFreqRel ++ cardNrFreq nrFreq
    ++ cardGuFreqRel guFreqRel ++ cardGuSync guSync

/-! ## Report assembler -/

/-- The eight optional input tables of `build_summary_audit`. -/
structure Inputs where
  nrCellDu : Option Table
  nrFreq : Option Table
  nrFreqRel : Option Table
  freqPrioNr : Option Table
  guSyncSignalFreq : Option Table
  guFreqRel : Option Table
  nrSectorCarrier : Option Table
  endcDistrProfile : Option Table
deriving DecidableEq

/-- `desired_order`: the 17 recognized `(Category, SubCategory)`
priority buckets, in display order. -/
def desiredOrder : List (String × String) :=
  [("NR Frequency Audit", "NRFrequency"),
   ("NR Frequency Audit", "NRFreqRelation"),
   ("NR Frequency Audit", "NRSectorCarrier"),
   ("NR Frequency Audit", "NRCellDU"),
   ("NR Frequency Audit", "FreqPrioNR"),
   ("NR Frequency Inconsistencies", "NRFrequency"),
   ("NR Frequency Inconsistencies", "NRFreqRelation"),
   ("NR Frequency Inconsistencies", "NRSectorCarrier"),
   ("NR Frequency Inconsistencies", "FreqPrioNR"),
   ("LTE Frequency Audit", "GUtranSyncSignalFrequency"),
   ("LTE Frequency Audit", "GUtranFreqRelation"),
   ("LTE Frequency Inconsistences", "GUtranSyncSignalFrequency"),
   ("LTE Frequency Inconsistences", "GUtranFreqRelation"),
   ("EndcDistrProfile Audit", "EndcDistrProfile"),
   ("EndcDistrProfile Inconsistencies", "EndcDistrProfile"),
   ("Cardinality Audit", "Cardinality"),
   ("Cardinality Inconsistencies", "Cardinality")]

/-- `order_row`: the priority index of a row, `len(desired_order)+100`
(= 117) when the bucket is unrecognized. -/
def orderRow (r : ReportRow) : Nat :=
  (desiredOrder.findIdx? (fun p => p == (r.category, r.subCategory))).getD 117

/-- Concatenation of the priority buckets with index below `n`, each
bucket keeping the original row order.  `bucketsLT l 17 ++` the
unrecognized rows is exactly the stable sort
(`sort_values(kind="mergesort")`) of `l` by `orderRow`. -/
def bucketsLT (l : List ReportRow) : Nat → List ReportRow
  | 0 => []
  | n + 1 => bucketsLT l n ++ l.filter (fun r => orderRow r == n)

/-- The stable sort of the report rows by bucket priority, recognized
buckets in order followed by unrecognized rows in insertion order. -/
def sortRows (l : List ReportRow) : List ReportRow :=
  bucketsLT l 17 ++ l.filter (fun r => decide (17 ≤ orderRow r))

/-- The synthetic fallback row emitted when no checker added a row. -/
def infoRow : ReportRow :=
  ⟨"Info", "Info", "SummaryAudit", .str "No data available", ""⟩

/-- `if not rows: rows.append({... "No data available" ...})`. -/
def withFallback (l : List ReportRow) : List ReportRow :=
  if l.isEmpty then [infoRow] else l

/-- All checker rows in the fixed invocation sequence of `main`. -/
def collectRows (cfg : Config) (inp : Inputs) : List ReportRow :=
  processNrFreq cfg inp.nrFreq
    ++ processNrFreqRel cfg inp.nrFreqRel
    ++ processNrCellDu inp.nrCellDu
    ++ processNrSectorCarrier cfg inp.nrSectorCarrier
    ++ processFreqPrioNr inp.freqPrioNr
    ++ processGuSyncSignalFreq cfg inp.guSyncSignalFreq
    ++ processGuFreqRel cfg inp.guFreqRel
    ++ processEndcDistrProfile cfg inp.endcDistrProfile
    ++ processCardinalities inp.nrFreqRel inp.nrFreq inp.guFreqRel inp.guSyncSignalFreq

/-- `build_summary_audit`: run every checker, supply the fallback row,
stable-sort by bucket priority. -/
def buildSummaryAudit (cfg : Config) (inp : Inputs) : List ReportRow :=
  sortRows (withFallback (collectRows cfg inp))

/-! ## Membership lemmas for the sorting / deduplication helpers -/

theorem mem_insertByLt {α : Type} (lt : α → α → Bool) (x a : α) (l : List α) :
    a ∈ insertByLt lt x l ↔ a = x ∨ a ∈ l := by
  induction l with
  | nil => simp [insertByLt]
  | cons y ys ih =>
    simp only [insertByLt]
    by_cases h : lt x y = true
    · simp [h]
    · simp only [h, if_neg, Bool.false_eq_true, not_false_iff, ite_false,
        List.mem_cons, ih]
      tauto

theorem mem_sortByLt {α : Type} (lt : α → α → Bool) (a : α) (l : List α) :
    a ∈ sortByLt lt l ↔ a ∈ l := by
  induction l with
  | nil => simp [sortByLt]
  | cons x xs ih =>
    simp only [sortByLt, List.foldr_cons] at ih ⊢
    rw [mem_insertByLt, ih, List.mem_cons]

theorem mem_sortStr (a : String) (l : List String) : a ∈ sortStr l ↔ a ∈ l :=
  mem_sortByLt _ a l

theorem mem_dedupFirstAux {α : Type} [DecidableEq α] (a : α) (l : List α) :
    ∀ seen : List α, a ∈ dedupFirstAux seen l ↔ a ∈ l ∧ a ∉ seen := by
  induction l with
  | nil => intro seen; simp [dedupFirstAux]
  | cons x xs ih =>
    intro seen
    rw [dedupFirstAux]
    by_cases hs : seen.contains x
    · have hxseen : x ∈ seen := by simpa using hs
      rw [if_pos hs, ih]
      constructor
      · rintro ⟨h1, h2⟩; exact ⟨List.mem_cons_of_mem _ h1, h2⟩
      · rintro ⟨h1, h2⟩
        rcases List.mem_cons.mp h1 with rfl | h1
        · exact absurd hxseen h2
        · exact ⟨h1, h2⟩
    · have hxseen : x ∉ seen := by simpa using hs
      rw [if_neg hs]
      simp only [List.mem_cons, ih]
      by_cases hax : a = x
      · subst hax; simp [hxseen]
      · simp only [hax, false_or, List.mem_cons]

theorem mem_dedupFirst {α : Type} [DecidableEq α] (a : α) (l : List α) :
    a ∈ dedupFirst l ↔ a ∈ l := by
  rw [dedupFirst, mem_dedupFirstAux]
  simp

theorem mem_interSorted (x : String) (a b : List String) :
    x ∈ interSorted a b ↔ x ∈ a ∧ x ∈ b := by
  simp [interSorted, mem_sortStr, mem_dedupFirst, List.mem_filter]

theorem mem_diffSorted (x : String) (a b : List String) :
    x ∈ diffSorted a b ↔ x ∈ a ∧ x ∉ b := by
  simp [diffSorted, mem_sortStr, mem_dedupFirst, List.mem_filter]

theorem findIdxQ_lt_length {α : Type} (p : α → Bool) (l : List α) :
    ∀ i : Nat, l.findIdx? p = some i → i < l.length := by
  induction l with
  | nil => intro i h; simp [List.findIdx?] at h
  | cons x xs ih =>
    intro i h
    rw [List.findIdx?_cons] at h
    by_cases hp : p x = true
    · simp [hp] at h
      simp [← h]
    · simp [hp] at h
      obtain ⟨a, ha, rfl⟩ := h
      have := ih a ha
      simp
      omega

/-- A row's bucket key is a recognized priority index (below 17)
exactly when its `(Category, SubCategory)` pair is listed; otherwise
the key is the overflow value 117. -/
theorem orderRow_mem_iff (r : ReportRow) :
    ((r.category, r.subCategory) ∈ desiredOrder ↔ orderRow r < 17) ∧
    ((r.category, r.subCategory) ∉ desiredOrder ↔ orderRow r = 117) := by
  cases h : desiredOrder.findIdx? (fun p => p == (r.category, r.subCategory)) with
  | none =>
    have hout : (r.category, r.subCategory) ∉ desiredOrder := by
      intro hmem
      have := (List.findIdx?_eq_none_iff.mp h) _ hmem
      simp at this
    have hval : orderRow r = 117 := by simp [orderRow, h]
    constructor
    · constructor
      · intro hmem; exact absurd hmem hout
      · intro hlt; rw [hval] at hlt; omega
    · constructor
      · intro _; exact hval
      · intro _; exact hout
  | some i =>
    have hmem : (r.category, r.subCategory) ∈ desiredOrder := by
      by_contra hnot
      have : desiredOrder.findIdx? (fun p => p == (r.category, r.subCategory)) = none := by
        apply List.findIdx?_eq_none_iff.mpr
        intro x hx
        simp only [beq_eq_false_iff_ne, ne_eq]
        intro hxeq
        exact hnot (hxeq ▸ hx)
      rw [this] at h; exact Option.noConfusion h
    have hbound : i < desiredOrder.length := findIdxQ_lt_length _ _ i h
    have hlen : desiredOrder.length = 17 := by decide
    have hval : orderRow r = i := by simp [orderRow, h]
    constructor
    · constructor
      · intro _; rw [hval]; omega
      · intro _; exact hmem
    · constructor
      · intro hnot; exact absurd hmem hnot
      · intro heq; rw [hval] at heq; omega

/-! ## Properties of the stable bucket sort -/

theorem mem_bucketsLT (l : List ReportRow) (n : Nat) (r : ReportRow)
    (h : r ∈ bucketsLT l n) : orderRow r < n ∧ r ∈ l := by
  induction n with
  | zero => simp [bucketsLT] at h
  | succ n ih =>
    rw [bucketsLT] at h
    rcases List.mem_append.mp h with h1 | h2
    · have := ih h1
      exact ⟨Nat.lt_succ_of_lt this.1, this.2⟩
    · have := List.mem_filter.mp h2
      have heq : orderRow r = n := by simpa using this.2
      exact ⟨by omega, this.1⟩

theorem bucketsLT_pairwise (l : List ReportRow) (n : Nat) :
    (bucketsLT l n).Pairwise (fun a b => orderRow a ≤ orderRow b) := by
  induction n with
  | zero => simp [bucketsLT]
  | succ n ih =>
    rw [bucketsLT, List.pairwise_append]
    refine ⟨ih, ?_, ?_⟩
    · apply List.pairwise_of_forall_mem_list
      intro a ha b hb
      have ha2 : orderRow a = n := by simpa using (List.mem_filter.mp ha).2
      have hb2 : orderRow b = n := by simpa using (List.mem_filter.mp hb).2
      omega
    · intro a ha b hb
      have ha2 := (mem_bucketsLT l n a ha).1
      have hb2 : orderRow b = n := by simpa using (List.mem_filter.mp hb).2
      omega

theorem sortRows_pairwise (l : List ReportRow) :
    (sortRows l).Pairwise (fun a b => orderRow a ≤ orderRow b) := by
  rw [sortRows, List.pairwise_append]
  refine ⟨bucketsLT_pairwise l 17, ?_, ?_⟩
  · apply List.pairwise_of_forall_mem_list
    intro a ha b hb
    have ha2 : 17 ≤ orderRow a := by simpa using (List.mem_filter.mp ha).2
    have hb2 : 17 ≤ orderRow b := by simpa using (List.mem_filter.mp hb).2
    have := (orderRow_mem_iff a).2
    have := (orderRow_mem_iff b).2
    rcases Nat.lt_or_ge (orderRow a) 17 with h | h
    · omega
    · have haa : orderRow a = 117 := by
        rcases (orderRow_mem_iff a) with ⟨h1, h2⟩
        exact h2.mp (fun hm => by have := h1.mp hm; omega)
      have hbb : orderRow b = 117 := by
        rcases (orderRow_mem_iff b) with ⟨h1, h2⟩
        exact h2.mp (fun hm => by have := h1.mp hm; omega)
      omega
  · intro a ha b hb
    have ha2 := (mem_bucketsLT l 17 a ha).1
    have hb2 : 17 ≤ orderRow b := by simpa using (List.mem_filter.mp hb).2
    omega

theorem filter_bucketsLT (l : List ReportRow) (k : Nat) : ∀ n : Nat,
    (bucketsLT l n).filter (fun r => orderRow r == k)
      = if k < n then l.filter (fun r => orderRow r == k) else [] := by
  intro n
  induction n with
  | zero => simp [bucketsLT]
  | succ n ih =>
    rw [bucketsLT, List.filter_append, ih, List.filter_filter]
    by_cases hk : k = n
    · subst hk
      rw [if_neg (by omega), if_pos (by omega), List.nil_append]
      apply List.filter_congr
      intro r _
      by_cases h : orderRow r = k <;> simp [h]
    · have h2 : l.filter (fun r => (orderRow r == k) && (orderRow r == n)) = [] := by
        apply List.filter_eq_nil_iff.mpr
        intro r _
        by_cases h : orderRow r = k
        · simp [h, hk]
        · simp [h]
      rw [h2, List.append_nil]
      by_cases hlt : k < n
      · rw [if_pos hlt, if_pos (by omega)]
      · rw [if_neg hlt, if_neg (by omega)]

theorem sortRows_filter (l : List ReportRow) (k : Nat) :
    (sortRows l).filter (fun r => orderRow r == k)
      = l.filter (fun r => orderRow r == k) := by
  rw [sortRows, List.filter_append, filter_bucketsLT, List.filter_filter]
  by_cases hk : k < 17
  · rw [if_pos hk]
    have h2 : l.filter (fun r => (orderRow r == k) && decide (17 ≤ orderRow r)) = [] := by
      apply List.filter_eq_nil_iff.mpr
      intro r _
      by_cases h : orderRow r = k <;> simp [h] <;> omega
    rw [h2, List.append_nil]
  · rw [if_neg hk, List.nil_append]
    apply List.filter_congr
    intro r _
    by_cases h : orderRow r = k <;> simp [h] <;> omega

theorem bucketsLT_perm (l : List ReportRow) : ∀ n : Nat,
    (bucketsLT l n).Perm (l.filter (fun r => decide (orderRow r < n))) := by
  intro n
  induction n with
  | zero =>
    rw [bucketsLT]
    have : l.filter (fun r => decide (orderRow r < 0)) = [] := by
      apply List.filter_eq_nil_iff.mpr
      intro r _
      simp
    rw [this]
  | succ n ih =>
    rw [bucketsLT]
    have step := ih.append_right (l.filter (fun r => orderRow r == n))
    apply step.trans
    have hsplit := List.filter_append_perm
      (fun r => decide (orderRow r < n))
      (l.filter (fun r => decide (orderRow r < n + 1)))
    rw [List.filter_filter, List.filter_filter] at hsplit
    have e1 : l.filter (fun r => decide (orderRow r < n) && decide (orderRow r < n + 1))
        = l.filter (fun r => decide (orderRow r < n)) := by
      apply List.filter_congr
      intro r _
      by_cases h : orderRow r < n <;> simp [h] <;> omega
    have e2 : l.filter (fun r => !decide (orderRow r < n) && decide (orderRow r < n + 1))
        = l.filter (fun r => orderRow r == n) := by
      apply List.filter_congr
      intro r _
      by_cases h : orderRow r = n
      · simp [h]
      · by_cases h2 : orderRow r < n
        · simp [h, h2]
        · have h3 : ¬ (orderRow r < n + 1) := by omega
          simp [h, h2, h3]
    rw [e1, e2] at hsplit
    exact hsplit

theorem sortRows_perm (l : List ReportRow) : (sortRows l).Perm l := by
  rw [sortRows]
  have h1 := (bucketsLT_perm l 17).append_right
    (l.filter (fun r => decide (17 ≤ orderRow r)))
  apply h1.trans
  have e : l.filter (fun r => decide (17 ≤ orderRow r))
      = l.filter (fun r => !decide (orderRow r < 17)) := by
    apply List.filter_congr
    intro r _
    by_cases h : orderRow r < 17 <;> simp [h] <;> omega
  rw [e]
  exact List.filter_append_perm _ l

theorem sortRows_ne_nil (l : List ReportRow) (h : l ≠ []) : sortRows l ≠ [] := by
  intro hnil
  apply h
  have := (sortRows_perm l).length_eq
  rw [hnil] at this
  exact List.eq_nil_of_length_eq_zero this.symm

/-! ## Properties of the cardinality counting -/

theorem mem_countsOf {α : Type} [DecidableEq α] (p : α × Nat) (vals : List α) :
    p ∈ countsOf vals ↔ p.1 ∈ vals ∧ p.2 = vals.count p.1 := by
  rw [countsOf, mem_sortByLt, List.mem_map]
  constructor
  · rintro ⟨k, hk, rfl⟩
    exact ⟨(mem_dedupFirst k vals).mp hk, rfl⟩
  · rintro ⟨h1, h2⟩
    refine ⟨p.1, (mem_dedupFirst _ _).mpr h1, ?_⟩
    cases p with
    | mk a b => simp only at h2 ⊢; rw [h2]

theorem foldrMax_ge {β : Type} (l : List (β × Nat)) (p : β × Nat) (hp : p ∈ l) :
    p.2 ≤ l.foldr (fun q m => max q.2 m) 0 := by
  induction l with
  | nil => simp at hp
  | cons x xs ih =>
    simp only [List.foldr_cons]
    rcases List.mem_cons.mp hp with rfl | h
    · exact Nat.le_max_left _ _
    · exact le_trans (ih h) (Nat.le_max_right _ _)

theorem foldrMax_attained {β : Type} (l : List (β × Nat)) (h : l ≠ []) :
    ∃ p ∈ l, p.2 = l.foldr (fun q m => max q.2 m) 0 := by
  induction l with
  | nil => exact absurd rfl h
  | cons x xs ih =>
    cases xs with
    | nil => exact ⟨x, by simp, by simp⟩
    | cons y ys =>
      obtain ⟨p, hp, hpe⟩ := ih (by simp)
      by_cases hc : (y :: ys).foldr (fun q m => max q.2 m) 0 ≤ x.2
      · simp only [List.foldr_cons] at hc ⊢
        exact ⟨x, by simp, (Nat.max_eq_left hc).symm⟩
      · have hc2 := Nat.le_of_not_le hc
        simp only [List.foldr_cons] at hc2 hpe ⊢
        exact ⟨p, List.mem_cons_of_mem _ hp,
          hpe.trans (Nat.max_eq_right hc2).symm⟩

theorem le_cardMax {α : Type} [DecidableEq α] (vals : List α) (k : α)
    (hk : k ∈ vals) : vals.count k ≤ cardMax vals := by
  have hmem : (k, vals.count k) ∈ countsOf vals :=
    (mem_countsOf _ _).mpr ⟨hk, rfl⟩
  exact foldrMax_ge _ _ hmem

theorem cardMax_attained {α : Type} [DecidableEq α] (vals : List α)
    (h : vals ≠ []) : ∃ k ∈ vals, vals.count k = cardMax vals := by
  have hne : countsOf vals ≠ [] := by
    cases vals with
    | nil => exact absurd rfl h
    | cons v vs =>
      exact List.ne_nil_of_mem ((mem_countsOf (v, (v :: vs).count v) _).mpr
        ⟨List.mem_cons_self v vs, rfl⟩)
  obtain ⟨p, hp, hpe⟩ := foldrMax_attained _ hne
  have hm := (mem_countsOf p _).mp hp
  exact ⟨p.1, hm.1, by rw [← hm.2]; exact hpe⟩

theorem cardMax_pos {α : Type} [DecidableEq α] (vals : List α)
    (h : vals ≠ []) : 0 < cardMax vals := by
  cases vals with
  | nil => exact absurd rfl h
  | cons v vs =>
    have h1 : 0 < (v :: vs).count v := List.count_pos_iff.mpr (List.mem_cons_self v vs)
    exact lt_of_lt_of_le h1 (le_cardMax _ _ (List.mem_cons_self v vs))

theorem cardAtLimitAbove_isEmpty_iff {α : Type} [DecidableEq α]
    (limit : Nat) (vals : List α) :
    ((countsOf vals).filter (fun p => decide (limit ≤ p.2))).isEmpty = true
      ↔ ¬ ∃ j ∈ vals, limit ≤ vals.count j := by
  rw [List.isEmpty_iff, List.filter_eq_nil_iff]
  constructor
  · rintro h ⟨j, hj, hc⟩
    have := h (j, vals.count j) ((mem_countsOf _ _).mpr ⟨hj, rfl⟩)
    simp at this
    omega
  · intro h p hp
    have hm := (mem_countsOf p _).mp hp
    simp only [decide_eq_true_eq] at *
    intro hle
    exact h ⟨p.1, hm.1, hm.2 ▸ hle⟩

theorem mem_cardAtLimit {α : Type} [DecidableEq α] (limit : Nat)
    (vals : List α) (k : α) :
    k ∈ (cardAtLimit limit vals).map Prod.fst
      ↔ (k ∈ vals ∧ vals.count k = limit) := by
  rw [cardAtLimit, List.mem_map]
  constructor
  · rintro ⟨p, hp, rfl⟩
    have := List.mem_filter.mp hp
    have hm := (mem_countsOf p _).mp this.1
    have heq : p.2 = limit := by simpa using this.2
    exact ⟨hm.1, by rw [← hm.2]; exact heq⟩
  · rintro ⟨h1, h2⟩
    refine ⟨(k, vals.count k), List.mem_filter.mpr
      ⟨(mem_countsOf _ _).mpr ⟨h1, rfl⟩, by simpa using h2⟩, rfl⟩

theorem mem_cardAuditSel {α : Type} [DecidableEq α] (limit : Nat)
    (vals : List α) (hne : vals ≠ []) (k : α) :
    k ∈ (cardAuditSel limit vals).map Prod.fst
      ↔ (k ∈ vals ∧ if ∃ j ∈ vals, limit ≤ vals.count j
          then limit ≤ vals.count k else vals.count k = cardMax vals) := by
  rw [cardAuditSel]
  by_cases hcond : ∃ j ∈ vals, limit ≤ vals.count j
  · have hempty : ((countsOf vals).filter (fun p => decide (limit ≤ p.2))).isEmpty = false := by
      cases h : ((countsOf vals).filter (fun p => decide (limit ≤ p.2))).isEmpty with
      | false => rfl
      | true => exact absurd hcond ((cardAtLimitAbove_isEmpty_iff limit vals).mp h)
    rw [if_pos hcond]
    simp only [hempty, Bool.false_and, Bool.false_eq_true, if_false]
    rw [List.mem_map]
    constructor
    · rintro ⟨p, hp, rfl⟩
      have := List.mem_filter.mp hp
      have hm := (mem_countsOf p _).mp this.1
      have hle : limit ≤ p.2 := by simpa using this.2
      exact ⟨hm.1, by rw [← hm.2]; exact hle⟩
    · rintro ⟨h1, h2⟩
      exact ⟨(k, vals.count k), List.mem_filter.mpr
        ⟨(mem_countsOf _ _).mpr ⟨h1, rfl⟩, by simpa using h2⟩, rfl⟩
  · have hempty : ((countsOf vals).filter (fun p => decide (limit ≤ p.2))).isEmpty = true :=
      (cardAtLimitAbove_isEmpty_iff limit vals).mpr hcond
    have hpos : 0 < cardMax vals := cardMax_pos vals hne
    rw [if_neg hcond]
    simp only [hempty, Bool.true_and, decide_eq_true_eq, hpos, if_true]
    rw [List.mem_map]
    constructor
    · rintro ⟨p, hp, rfl⟩
      have := List.mem_filter.mp hp
      have hm := (mem_countsOf p _).mp this.1
      have heq : p.2 = cardMax vals := by simpa using this.2
      exact ⟨hm.1, by rw [← hm.2]; exact heq⟩
    · rintro ⟨h1, h2⟩
      exact ⟨(k, vals.count k), List.mem_filter.mpr
        ⟨(mem_countsOf _ _).mpr ⟨h1, rfl⟩, by simpa using h2⟩, rfl⟩

theorem withFallback_ne_nil (l : List ReportRow) : withFallback l ≠ [] := by
  rw [withFallback]
  by_cases h : l.isEmpty
  · simp [h]
  · simp only [h, ite_false, Bool.false_eq_true]
    intro hnil
    rw [hnil] at h
    simp at h

/-! ## Shared concrete instances for witnesses -/

/-- A representative configuration (old ARFCN 652000, new 655000,
N77B SSB 660001). -/
def cfgEx : Config := ⟨652000, 655000, 660001, [652224], [646668]⟩

/-- The all-absent input bundle. -/
def inpNone : Inputs := ⟨none, none, none, none, none, none, none, none⟩

/-! ## Claim theorems -/

/-- C1: for every combination of input tables (each possibly absent,
empty, or malformed) and any configuration, `build_summary_audit`
returns (the embedding is total) a Report with at least one row, and
the assembler turns an empty row list into exactly the synthetic
`{Info, Info, SummaryAudit, "No data available"}` row. -/
theorem spec_C1_audit_total_and_nonempty :
    (∀ (cfg : Config) (inp : Inputs), buildSummaryAudit cfg inp ≠ []) ∧
    withFallback [] = [infoRow] ∧
    sortRows [infoRow] = [infoRow] ∧
    infoRow = ⟨"Info", "Info", "SummaryAudit", .str "No data available", ""⟩ ∧
    (∀ (cfg : Config) (inp : Inputs),
      buildSummaryAudit cfg inp = sortRows (withFallback (collectRows cfg inp))) := by
  refine ⟨?_, by decide, by decide, rfl, fun cfg inp => rfl⟩
  intro cfg inp
  exact sortRows_ne_nil _ (withFallback_ne_nil _)

theorem spec_C1_witness : buildSummaryAudit cfgEx inpNone ≠ [] :=
  spec_C1_audit_total_and_nonempty.1 cfgEx inpNone

/-- C2: the output report is the stable bucket sort of the collected
rows: bucket keys are monotone along the output, every bucket keeps
the original insertion order, the output is a permutation of the
input, listed pairs have priority below 17 and unlisted pairs get the
overflow key 117 (hence sort after all recognized rows). -/
theorem spec_C2_stable_priority_ordering (cfg : Config) (inp : Inputs) :
    buildSummaryAudit cfg inp = sortRows (withFallback (collectRows cfg inp)) ∧
    (buildSummaryAudit cfg inp).Pairwise (fun a b => orderRow a ≤ orderRow b) ∧
    (∀ k : Nat, (buildSummaryAudit cfg inp).filter (fun r => orderRow r == k)
      = (withFallback (collectRows cfg inp)).filter (fun r => orderRow r == k)) ∧
    (buildSummaryAudit cfg inp).Perm (withFallback (collectRows cfg inp)) ∧
    (∀ r : ReportRow, ((r.category, r.subCategory) ∈ desiredOrder ↔ orderRow r < 17) ∧
      ((r.category, r.subCategory) ∉ desiredOrder ↔ orderRow r = 117)) :=
  ⟨rfl, sortRows_pairwise _, fun k => sortRows_filter _ k, sortRows_perm _,
   orderRow_mem_iff⟩

theorem spec_C2_witness :
    (buildSummaryAudit cfgEx inpNone).Pairwise (fun a b => orderRow a ≤ orderRow b) :=
  (spec_C2_stable_priority_ordering cfgEx inpNone).2.1

/-- C9: `build_summary_audit` is deterministic: two invocations on
identical tables and identical configuration yield identical reports
(the embedding is a pure function of its arguments). -/
theorem spec_C9_deterministic (cfg cfg2 : Config) (inp inp2 : Inputs)
    (hc : cfg = cfg2) (hi : inp = inp2) :
    buildSummaryAudit cfg inp = buildSummaryAudit cfg2 inp2 := by
  subst hc
  subst hi
  rfl

theorem spec_C9_witness :
    buildSummaryAudit cfgEx inpNone = buildSummaryAudit cfgEx inpNone :=
  spec_C9_deterministic cfgEx cfgEx inpNone inpNone rfl rfl

/-- C5: a cell value whose frequency parse is absent satisfies none of
`is_old`, `is_new`, `is_allowed_n77_ssb`, `is_allowed_n77_arfcn`, and
does satisfy `is_not_old_not_new`, so an unparsable value counts as
neither old nor new. -/
theorem spec_C5_absent_parse_is_never_a_match (cfg : Config) (v : Cell)
    (h : parseIntFrequency v = none) :
    isOld cfg v = false ∧ isNew cfg v = false ∧
    isAllowedN77Ssb cfg v = false ∧ isAllowedN77Arfcn cfg v = false ∧
    isNotOldNotNew cfg v = true := by
  simp [isOld, isNew, isAllowedN77Ssb, isAllowedN77Arfcn, isNotOldNotNew, h]

theorem spec_C5_witness :
    parseIntFrequency (some "abc") = none ∧
    (isOld cfgEx (some "abc") = false ∧ isNew cfgEx (some "abc") = false ∧
     isAllowedN77Ssb cfgEx (some "abc") = false ∧
     isAllowedN77Arfcn cfgEx (some "abc") = false ∧
     isNotOldNotNew cfgEx (some "abc") = true) :=
  ⟨by decide, spec_C5_absent_parse_is_never_a_match cfgEx (some "abc") (by decide)⟩

/-- C10: when the NRFrequency table is present and non-empty, both
columns resolve (to truthy names) and no row classifies as N77, the
NRFrequency checker emits exactly the single "no N77 rows" row; in
particular the six count rows (including the all-rows "ARFCN defined"
count) are not emitted. -/
theorem spec_C10_no_n77_rows_single_row (cfg : Config) (df : Table) (nc ac : String)
    (hne : df.isEmpty = false)
    (hnc : resolveColumnCaseInsensitive df ["NodeId"] = some nc)
    (hncne : nc.isEmpty = false)
    (hac : resolveColumnCaseInsensitive df
      ["arfcnValueNRDl", "NRFrequencyId", "nRFrequencyId"] = some ac)
    (hacne : ac.isEmpty = false)
    (h77 : nrFreqN77Pairs df nc ac = []) :
    processNrFreq cfg (some df) =
      [⟨"NR Frequency Audit", "NRFrequency",
        "NRFrequency table has no N77 rows", .int 0, ""⟩] := by
  simp [processNrFreq, hne, hnc, hac, colTruthy, hncne, hacne, h77]

/-- C7: every checker (and every cardinality section) emits exactly
one row whose Value is "Table not found or empty" and stops, both when
its table is absent and when it is empty; for NRCellDU that row is
exactly `{NR Frequency Audit, NRCellDU, NRCellDU table, "Table not
found or empty"}`. -/
theorem spec_C7_absent_or_empty_table_single_row :
    (∀ cfg : Config, processNrFreq cfg none =
        [⟨"NR Frequency Audit", "NRFrequency", "NRFrequency table",
          .str "Table not found or empty", ""⟩] ∧
      ∀ t : Table, t.isEmpty = true → processNrFreq cfg (some t) =
        [⟨"NR Frequency Audit", "NRFrequency", "NRFrequency table",
          .str "Table not found or empty", ""⟩]) ∧
    (∀ cfg : Config, processNrFreqRel cfg none =
        [⟨"NR Frequency Audit", "NRFreqRelation", "NRFreqRelation table",
          .str "Table not found or empty", ""⟩] ∧
      ∀ t : Table, t.isEmpty = true → processNrFreqRel cfg (some t) =
        [⟨"NR Frequency Audit", "NRFreqRelation", "NRFreqRelation table",
          .str "Table not found or empty", ""⟩]) ∧
    (processNrCellDu none =
        [⟨"NR Frequency Audit", "NRCellDU", "NRCellDU table",
          .str "Table not found or empty", ""⟩] ∧
      ∀ t : Table, t.isEmpty = true → processNrCellDu (some t) =
        [⟨"NR Frequency Audit", "NRCellDU", "NRCellDU table",
          .str "Table not found or empty", ""⟩]) ∧
    (∀ cfg : Config, processNrSectorCarrier cfg none =
        [⟨"NR Frequency Audit", "NRSectorCarrier", "NRSectorCarrier table",
          .str "Table not found or empty", ""⟩] ∧
      ∀ t : Table, t.isEmpty = true → processNrSectorCarrier cfg (some t) =
        [⟨"NR Frequency Audit", "NRSectorCarrier", "NRSectorCarrier table",
          .str "Table not found or empty", ""⟩]) ∧
    (processFreqPrioNr none =
        [⟨"NR Frequency Audit", "FreqPrioNR", "FreqPrioNR table",
          .str "Table not found or empty", ""⟩] ∧
      ∀ t : Table, t.isEmpty = true → processFreqPrioNr (some t) =
        [⟨"NR Frequency Audit", "FreqPrioNR", "FreqPrioNR table",
          .str "Table not found or empty", ""⟩]) ∧
    (∀ cfg : Config, processGuSyncSignalFreq cfg none =
        [⟨"LTE Frequency Audit", "GUtranSyncSignalFrequency",
          "GUtranSyncSignalFrequency table", .str "Table not found or empty", ""⟩] ∧
      ∀ t : Table, t.isEmpty = true → processGuSyncSignalFreq cfg (some t) =
        [⟨"LTE Frequency Audit", "GUtranSyncSignalFrequency",
          "GUtranSyncSignalFrequency table", .str "Table not found or empty", ""⟩]) ∧
    (∀ cfg : Config, processGuFreqRel cfg none =
        [⟨"LTE Frequency Audit", "GUtranFreqRelation", "GUtranFreqRelation table",
          .str "Table not found or empty", ""⟩] ∧
      ∀ t : Table, t.isEmpty = true → processGuFreqRel cfg (some t) =
        [⟨"LTE Frequency Audit", "GUtranFreqRelation", "GUtranFreqRelation table",
          .str "Table not found or empty", ""⟩]) ∧
    (∀ cfg : Config, processEndcDistrProfile cfg none =
        [⟨"EndcDistrProfile Audit", "EndcDistrProfile", "EndcDistrProfile table",
          .str "Table not found or empty", ""⟩] ∧
      ∀ t : Table, t.isEmpty = true → processEndcDistrProfile cfg (some t) =
        [⟨"EndcDistrProfile Audit", "EndcDistrProfile", "EndcDistrProfile table",
          .str "Table not found or empty", ""⟩]) ∧
    (cardNrFreqRel none =
        [⟨"Cardinality Audit", "Cardinality", "NRFreqRelation per cell",
          .str "Table not found or empty", ""⟩] ∧
      ∀ t : Table, t.isEmpty = true → cardNrFreqRel (some t) =
        [⟨"Cardinality Audit", "Cardinality", "NRFreqRelation per cell",
          .str "Table not found or empty", ""⟩]) ∧
    (cardNrFreq none =
        [⟨"Cardinality Audit", "Cardinality", "NRFrequency per node",
          .str "Table not found or empty", ""⟩] ∧
      ∀ t : Table, t.isEmpty = true → cardNrFreq (some t) =
        [⟨"Cardinality Audit", "Cardinality", "NRFrequency per node",
          .str "Table not found or empty", ""⟩]) ∧
    (cardGuFreqRel none =
        [⟨"Cardinality Audit", "Cardinality", "GUtranFreqRelation per LTE cell",
          .str "Table not found or empty", ""⟩] ∧
      ∀ t : Table, t.isEmpty = true → cardGuFreqRel (some t) =
        [⟨"Cardinality Audit", "Cardinality", "GUtranFreqRelation per LTE cell",
          .str "Table not found or empty", ""⟩]) ∧
    (cardGuSync none =
        [⟨"Cardinality Audit", "Cardinality", "GUtranSyncSignalFrequency per node",
          .str "Table not found or empty", ""⟩] ∧
      ∀ t : Table, t.isEmpty = true → cardGuSync (some t) =
        [⟨"Cardinality Audit", "Cardinality", "GUtranSyncSignalFrequency per node",
          .str "Table not found or empty", ""⟩]) := by
  refine ⟨fun cfg => ⟨rfl, fun t h => by simp [processNrFreq, h]⟩,
    fun cfg => ⟨rfl, fun t h => by simp [processNrFreqRel, h]⟩,
    ⟨rfl, fun t h => by simp [processNrCellDu, h]⟩,
    fun cfg => ⟨rfl, fun t h => by simp [processNrSectorCarrier, h]⟩,
    ⟨rfl, fun t h => by simp [processFreqPrioNr, h]⟩,
    fun cfg => ⟨rfl, fun t h => by simp [processGuSyncSignalFreq, h]⟩,
    fun cfg => ⟨rfl, fun t h => by simp [processGuFreqRel, h]⟩,
    fun cfg => ⟨rfl, fun t h => by simp [processEndcDistrProfile, h]⟩,
    ⟨rfl, fun t h => by simp [cardNrFreqRel, h]⟩,
    ⟨rfl, fun t h => by simp [cardNrFreq, h]⟩,
    ⟨rfl, fun t h => by simp [cardGuFreqRel, h]⟩,
    ⟨rfl, fun t h => by simp [cardGuSync, h]⟩⟩

theorem spec_C7_witness :
    processNrCellDu none =
      [⟨"NR Frequency Audit", "NRCellDU", "NRCellDU table",
        .str "Table not found or empty", ""⟩] ∧
    processNrCellDu (some ⟨[], []⟩) =
      [⟨"NR Frequency Audit", "NRCellDU", "NRCellDU table",
        .str "Table not found or empty", ""⟩] :=
  ⟨spec_C7_absent_or_empty_table_single_row.2.2.1.1,
   spec_C7_absent_or_empty_table_single_row.2.2.1.2 ⟨[], []⟩ rfl⟩

/-- C4: under the conditions in which the NRFreqRelation checker emits
its node-level count rows, the node set of the "both old and new" row
is the intersection of the old-ARFCN and new-ARFCN node sets and the
node set of the "old but without new" row is their difference, and
those lists are exactly what the emitted rows carry. -/
theorem spec_C4_node_set_consistency (cfg : Config) (df : Table) (nc ac : String)
    (hne : df.isEmpty = false)
    (hnc : resolveColumnCaseInsensitive df ["NodeId"] = some nc)
    (hncne : nc.isEmpty = false)
    (hac : resolveColumnCaseInsensitive df ["NRFreqRelationId"] = some ac)
    (hacne : ac.isEmpty = false)
    (h77 : nrFreqRelN77Pairs df nc ac ≠ []) :
    (nrFreqRelBothNodes cfg df nc ac).toFinset
      = (nrFreqRelOldNodes cfg df nc ac).toFinset
          ∩ (nrFreqRelNewNodes cfg df nc ac).toFinset ∧
    (nrFreqRelOldWithoutNewNodes cfg df nc ac).toFinset
      = (nrFreqRelOldNodes cfg df nc ac).toFinset
          \ (nrFreqRelNewNodes cfg df nc ac).toFinset ∧
    processNrFreqRel cfg (some df) =
      [⟨"NR Frequency Audit", "NRFreqRelation",
        "NR nodes with the old ARFCN (" ++ toString cfg.oldArfcn
          ++ ") in NRFreqRelation",
        .int (nrFreqRelOldNodes cfg df nc ac).length,
        joinComma (nrFreqRelOldNodes cfg df nc ac)⟩,
       ⟨"NR Frequency Audit", "NRFreqRelation",
        "NR nodes with the new ARFCN (" ++ toString cfg.newArfcn
          ++ ") in NRFreqRelation",
        .int (nrFreqRelNewNodes cfg df nc ac).length,
        joinComma (nrFreqRelNewNodes cfg df nc ac)⟩,
       ⟨"NR Frequency Audit", "NRFreqRelation",
        "NR nodes with both, the old ARFCN (" ++ toString cfg.oldArfcn
          ++ ") and the new ARFCN (" ++ toString cfg.newArfcn
          ++ ") in NRFreqRelation",
        .int (nrFreqRelBothNodes cfg df nc ac).length,
        joinComma (nrFreqRelBothNodes cfg df nc ac)⟩,
       ⟨"NR Frequency Inconsistencies", "NRFreqRelation",
        "NR nodes with the old ARFCN (" ++ toString cfg.oldArfcn
          ++ ") but without the new ARFCN (" ++ toString cfg.newArfcn
          ++ ") in NRFreqRelation",
        .int (nrFreqRelOldWithoutNewNodes cfg df nc ac).length,
        joinComma (nrFreqRelOldWithoutNewNodes cfg df nc ac)⟩,
       ⟨"NR Frequency Inconsistencies", "NRFreqRelation",
        "NR nodes with the ARFCN not in (" ++ toString cfg.oldArfcn ++ ", "
          ++ toString cfg.newArfcn ++ ") in NRFreqRelation",
        .int (nodesWhere (nrFreqRelN77Pairs df nc ac) (seriesOnlyNotOldNotNew cfg)).length,
        joinComma (nodesWhere (nrFreqRelN77Pairs df nc ac) (seriesOnlyNotOldNotNew cfg))⟩]
      ++ nrFreqRelCellPart cfg df nc ac := by
  have h77e : (nrFreqRelN77Pairs df nc ac).isEmpty = false := by
    cases h : (nrFreqRelN77Pairs df nc ac).isEmpty with
    | false => rfl
    | true => exact absurd (List.isEmpty_iff.mp h) h77
  refine ⟨?_, ?_, ?_⟩
  · apply Finset.ext
    intro x
    simp [nrFreqRelBothNodes, mem_interSorted, List.mem_toFinset, Finset.mem_inter]
  · apply Finset.ext
    intro x
    simp [nrFreqRelOldWithoutNewNodes, mem_diffSorted, List.mem_toFinset,
      Finset.mem_sdiff]
  · simp [processNrFreqRel, hne, hnc, hac, colTruthy, hncne, hacne, h77e]

/-- The two-row, one-node NRFreqRelation scenario table of the spec. -/
def tblC4 : Table :=
  ⟨["NodeId", "NRFreqRelationId"],
   [[some "N1", some "652000"], [some "N1", some "655000"]]⟩

theorem spec_C4_witness :
    nrFreqRelBothNodes cfgEx tblC4 "NodeId" "NRFreqRelationId" = ["N1"] ∧
    (nrFreqRelBothNodes cfgEx tblC4 "NodeId" "NRFreqRelationId").toFinset
      = (nrFreqRelOldNodes cfgEx tblC4 "NodeId" "NRFreqRelationId").toFinset
          ∩ (nrFreqRelNewNodes cfgEx tblC4 "NodeId" "NRFreqRelationId").toFinset ∧
    (nrFreqRelOldWithoutNewNodes cfgEx tblC4 "NodeId" "NRFreqRelationId").toFinset
      = (nrFreqRelOldNodes cfgEx tblC4 "NodeId" "NRFreqRelationId").toFinset
          \ (nrFreqRelNewNodes cfgEx tblC4 "NodeId" "NRFreqRelationId").toFinset ∧
    (processNrFreqRel cfgEx (some tblC4)).get? 2 = some
      ⟨"NR Frequency Audit", "NRFreqRelation",
       "NR nodes with both, the old ARFCN (652000) and the new ARFCN (655000) in NRFreqRelation",
       .int 1, "N1"⟩ := by
  have h := spec_C4_node_set_consistency cfgEx tblC4 "NodeId" "NRFreqRelationId"
    (by decide) (by decide) (by decide) (by decide) (by decide) (by decide)
  exact ⟨by decide, h.1, h.2.1, by decide⟩

theorem spec_C10_witness :
    processNrFreq cfgEx (some ⟨["NodeId", "NRFrequencyId"], [[some "N1", some "100"]]⟩) =
      [⟨"NR Frequency Audit", "NRFrequency",
        "NRFrequency table has no N77 rows", .int 0, ""⟩] :=
  spec_C10_no_n77_rows_single_row cfgEx _ "NodeId" "NRFrequencyId"
    (by decide) (by decide) (by decide) (by decide) (by decide) (by decide)

/-- C8: in the ENDC Distribution Profile checker, with S the embedded
frequency set of a row's reference, the row matches the old+N77B mask
iff str(old) ∈ S and str(n77b) ∈ S, the new+N77B mask iff str(new) ∈ S
and str(n77b) ∈ S, and the inconsistency mask iff (str(old) ∉ S and
str(new) ∉ S) or str(n77b) ∉ S; a node is counted in a row iff some of
its rows matches the mask; and a row embedding both the new ARFCN and
the N77B SSB matches the new+N77B mask and not the inconsistency mask. -/
theorem spec_C8_endc_row_classification (cfg : Config) (df : Table) (nc rc : String)
    (hne : df.isEmpty = false)
    (hnc : resolveColumnCaseInsensitive df ["NodeId"] = some nc)
    (hncne : nc.isEmpty = false)
    (hrc : resolveColumnCaseInsensitive df ["gUtranFreqRef"] = some rc)
    (hrcne : rc.isEmpty = false) :
    (∀ ref : String, endcMaskOld cfg ref = true ↔
      (toString cfg.oldArfcn ∈ extractSyncFrequencies ref ∧
       toString cfg.n77bSsb ∈ extractSyncFrequencies ref)) ∧
    (∀ ref : String, endcMaskNew cfg ref = true ↔
      (toString cfg.newArfcn ∈ extractSyncFrequencies ref ∧
       toString cfg.n77bSsb ∈ extractSyncFrequencies ref)) ∧
    (∀ ref : String, endcMaskIncons cfg ref = true ↔
      ((toString cfg.oldArfcn ∉ extractSyncFrequencies ref ∧
        toString cfg.newArfcn ∉ extractSyncFrequencies ref) ∨
       toString cfg.n77bSsb ∉ extractSyncFrequencies ref)) ∧
    (∀ n : String, n ∈ endcOldNodes cfg df nc rc ↔
      ∃ p ∈ endcPairs df nc rc, p.1 = n ∧ endcMaskOld cfg p.2 = true) ∧
    (∀ n : String, n ∈ endcNewNodes cfg df nc rc ↔
      ∃ p ∈ endcPairs df nc rc, p.1 = n ∧ endcMaskNew cfg p.2 = true) ∧
    (∀ n : String, n ∈ endcBadNodes cfg df nc rc ↔
      ∃ p ∈ endcPairs df nc rc, p.1 = n ∧ endcMaskIncons cfg p.2 = true) ∧
    (∀ ref : String, toString cfg.newArfcn ∈ extractSyncFrequencies ref →
      toString cfg.n77bSsb ∈ extractSyncFrequencies ref →
      endcMaskNew cfg ref = true ∧ endcMaskIncons cfg ref = false) ∧
    processEndcDistrProfile cfg (some df) =
      [⟨"EndcDistrProfile Audit", "EndcDistrProfile",
        "Nodes with gUtranFreqRef containing " ++ toString cfg.oldArfcn ++ " and "
          ++ toString cfg.n77bSsb ++ " in EndcDistrProfile",
        .int (endcOldNodes cfg df nc rc).length, joinComma (endcOldNodes cfg df nc rc)⟩,
       ⟨"EndcDistrProfile Audit", "EndcDistrProfile",
        "Nodes with gUtranFreqRef containing " ++ toString cfg.newArfcn ++ " and "
          ++ toString cfg.n77bSsb ++ " in EndcDistrProfile",
        .int (endcNewNodes cfg df nc rc).length, joinComma (endcNewNodes cfg df nc rc)⟩,
       ⟨"EndcDistrProfile Inconsistencies", "EndcDistrProfile",
        "Nodes with gUtranFreqRef not containing (" ++ toString cfg.oldArfcn ++ " or "
          ++ toString cfg.newArfcn ++ ") together with " ++ toString cfg.n77bSsb
          ++ " in EndcDistrProfile",
        .int (endcBadNodes cfg df nc rc).length, joinComma (endcBadNodes cfg df nc rc)⟩] := by
  have hmOld : ∀ ref : String, endcMaskOld cfg ref = true ↔
      (toString cfg.oldArfcn ∈ extractSyncFrequencies ref ∧
       toString cfg.n77bSsb ∈ extractSyncFrequencies ref) := by
    intro ref
    simp [endcMaskOld]
  have hmNew : ∀ ref : String, endcMaskNew cfg ref = true ↔
      (toString cfg.newArfcn ∈ extractSyncFrequencies ref ∧
       toString cfg.n77bSsb ∈ extractSyncFrequencies ref) := by
    intro ref
    simp [endcMaskNew]
  have hmBad : ∀ ref : String, endcMaskIncons cfg ref = true ↔
      ((toString cfg.oldArfcn ∉ extractSyncFrequencies ref ∧
        toString cfg.newArfcn ∉ extractSyncFrequencies ref) ∨
       toString cfg.n77bSsb ∉ extractSyncFrequencies ref) := by
    intro ref
    simp [endcMaskIncons]
  refine ⟨hmOld, hmNew, hmBad, ?_, ?_, ?_, ?_, ?_⟩
  · intro n
    simp only [endcOldNodes, mem_sortStr, mem_dedupFirst, List.mem_map,
      List.mem_filter]
    constructor
    · rintro ⟨p, ⟨hp, hm⟩, rfl⟩
      exact ⟨p, hp, rfl, hm⟩
    · rintro ⟨p, hp, rfl, hm⟩
      exact ⟨p, ⟨hp, hm⟩, rfl⟩
  · intro n
    simp only [endcNewNodes, mem_sortStr, mem_dedupFirst, List.mem_map,
      List.mem_filter]
    constructor
    · rintro ⟨p, ⟨hp, hm⟩, rfl⟩
      exact ⟨p, hp, rfl, hm⟩
    · rintro ⟨p, hp, rfl, hm⟩
      exact ⟨p, ⟨hp, hm⟩, rfl⟩
  · intro n
    simp only [endcBadNodes, mem_sortStr, mem_dedupFirst, List.mem_map,
      List.mem_filter]
    constructor
    · rintro ⟨p, ⟨hp, hm⟩, rfl⟩
      exact ⟨p, hp, rfl, hm⟩
    · rintro ⟨p, hp, rfl, hm⟩
      exact ⟨p, ⟨hp, hm⟩, rfl⟩
  · intro ref h1 h2
    refine ⟨(hmNew ref).mpr ⟨h1, h2⟩, ?_⟩
    cases hval : endcMaskIncons cfg ref with
    | false => rfl
    | true =>
      rcases (hmBad ref).mp hval with ⟨_, hnn⟩ | hnb
      · exact absurd h1 hnn
      · exact absurd h2 hnb
  · simp [processEndcDistrProfile, hne, hnc, hrc, colTruthy, hncne, hrcne]

/-- The configuration of the spec's ENDC scenario (new ARFCN 648672,
N77B SSB 660001). -/
def cfgEndc : Config := ⟨652000, 648672, 660001, [], []⟩

/-- The one-row ENDC scenario table, whose reference embeds both the
new ARFCN and the N77B SSB. -/
def tblEndc : Table :=
  ⟨["NodeId", "gUtranFreqRef"], [[some "N1", some "648672-660001"]]⟩

theorem spec_C8_witness :
    (endcMaskNew cfgEndc "648672-660001" = true ∧
     endcMaskIncons cfgEndc "648672-660001" = false) ∧
    endcNewNodes cfgEndc tblEndc "NodeId" "gUtranFreqRef" = ["N1"] ∧
    endcBadNodes cfgEndc tblEndc "NodeId" "gUtranFreqRef" = [] := by
  have h := spec_C8_endc_row_classification cfgEndc tblEndc "NodeId" "gUtranFreqRef"
    (by decide) (by decide) (by decide) (by decide) (by decide)
  exact ⟨h.2.2.2.2.2.2.1 "648672-660001" (by decide) (by decide), by decide, by decide⟩

/-- C6: a cardinality section's audit row carries the maximum observed
group count with, as identifiers, those whose count reaches the limit
(or, when none does, those achieving the positive maximum), and its
inconsistencies row carries exactly the identifiers whose count equals
the limit; the four sections of `process_cardinalities` are this block
at (NR-relation-per-cell, 16), (NR-frequency-per-node, 64),
(LTE-relation-per-cell, 16) and (LTE-sync-per-node, 24). -/
theorem spec_C6_cardinality_rows {α : Type} [DecidableEq α] (fmt : α → String)
    (mAudit mIncons : String) (limit : Nat) (vals : List α) (hne : vals ≠ []) :
    cardinalityBlock fmt mAudit mIncons limit vals =
      [⟨"Cardinality Audit", "Cardinality", mAudit,
        .int (Int.ofNat (cardMax vals)), renderCounts fmt (cardAuditSel limit vals)⟩,
       ⟨"Cardinality Inconsistencies", "Cardinality", mIncons,
        .int (Int.ofNat (cardAtLimit limit vals).length),
        renderCounts fmt (cardAtLimit limit vals)⟩] ∧
    (∀ k ∈ vals, vals.count k ≤ cardMax vals) ∧
    (∃ k ∈ vals, vals.count k = cardMax vals) ∧
    (∀ k : α, k ∈ (cardAuditSel limit vals).map Prod.fst ↔
      (k ∈ vals ∧ if ∃ j ∈ vals, limit ≤ vals.count j
        then limit ≤ vals.count k else vals.count k = cardMax vals)) ∧
    (∀ k : α, k ∈ (cardAtLimit limit vals).map Prod.fst ↔
      (k ∈ vals ∧ vals.count k = limit)) ∧
    (∀ (df : Table) (cc : String), df.isEmpty = false →
      resolveColumnCaseInsensitive df ["NRCellCUId", "NRCellId", "CellId"] = some cc →
      cc.isEmpty = false →
      cardNrFreqRel (some df) = cardinalityBlock cellToStr
        "Max NRFreqRelation per NR cell (limit 16)"
        "NR cells with NRFreqRelation count at limit 16"
        16 (df.data.map (getCell df cc))) ∧
    (∀ (df : Table) (ncol : String), df.isEmpty = false →
      resolveColumnCaseInsensitive df ["NodeId"] = some ncol →
      ncol.isEmpty = false →
      cardNrFreq (some df) = cardinalityBlock (fun s => s)
        "Max NRFrequency definitions per node (limit 64)"
        "NR nodes with NRFrequency definitions at limit 64"
        64 (df.data.map (fun r => cellToStr (getCell df ncol r)))) ∧
    (∀ (df : Table) (cc : String), df.isEmpty = false →
      resolveColumnCaseInsensitive df
        ["EUtranCellFDDId", "EUtranCellId", "CellId", "GUCellId"] = some cc →
      cc.isEmpty = false →
      cardGuFreqRel (some df) = cardinalityBlock cellToStr
        "Max GUtranFreqRelation per LTE cell (limit 16)"
        "LTE cells with GUtranFreqRelation count at limit 16"
        16 (df.data.map (getCell df cc))) ∧
    (∀ (df : Table) (ncol : String), df.isEmpty = false →
      resolveColumnCaseInsensitive df ["NodeId"] = some ncol →
      ncol.isEmpty = false →
      cardGuSync (some df) = cardinalityBlock (fun s => s)
        "Max GUtranSyncSignalFrequency definitions per node (limit 24)"
        "LTE nodes with GUtranSyncSignalFrequency definitions at limit 24"
        24 (df.data.map (fun r => cellToStr (getCell df ncol r)))) := by
  refine ⟨rfl, fun k hk => le_cardMax _ _ hk, cardMax_attained _ hne,
    fun k => mem_cardAuditSel _ _ hne k, fun k => mem_cardAtLimit _ _ k,
    ?_, ?_, ?_, ?_⟩
  · intro df cc h1 h2 h3
    simp [cardNrFreqRel, h1, h2, colTruthy, h3]
  · intro df ncol h1 h2 h3
    simp [cardNrFreq, h1, h2, colTruthy, h3]
  · intro df cc h1 h2 h3
    simp [cardGuFreqRel, h1, h2, colTruthy, h3]
  · intro df ncol h1 h2 h3
    simp [cardGuSync, h1, h2, colTruthy, h3]

/-- The cardinality scenario table: one NR cell with 17 relation rows. -/
def tblCard : Table :=
  ⟨["NRCellCUId"], List.replicate 17 [some "C1"]⟩

theorem spec_C6_witness :
    cardNrFreqRel (some tblCard) =
      [⟨"Cardinality Audit", "Cardinality",
        "Max NRFreqRelation per NR cell (limit 16)", .int 17, "C1: 17"⟩,
       ⟨"Cardinality Inconsistencies", "Cardinality",
        "NR cells with NRFreqRelation count at limit 16", .int 0, ""⟩] ∧
    (cardAtLimit 16 (tblCard.data.map (getCell tblCard "NRCellCUId"))).map Prod.fst = [] ∧
    (∃ k ∈ tblCard.data.map (getCell tblCard "NRCellCUId"),
      @List.count Cell instBEqOfDecidableEq k (tblCard.data.map (getCell tblCard "NRCellCUId"))
        = cardMax (tblCard.data.map (getCell tblCard "NRCellCUId"))) := by
  have h := spec_C6_cardinality_rows cellToStr
    "Max NRFreqRelation per NR cell (limit 16)"
    "NR cells with NRFreqRelation count at limit 16"
    16 (tblCard.data.map (getCell tblCard "NRCellCUId")) (by decide)
  exact ⟨by decide, by decide, h.2.2.1⟩

/-- The NRFreqRelation table exhibiting the parameter-equality bug:
one cell `C1` with one old-ARFCN row and one new-ARFCN row whose
non-ignored attributes are identical. -/
def tblC3 : Table :=
  ⟨["NodeId", "NRFreqRelationId", "NRCellCUId", "pZeroNomPuschGrant"],
   [[some "N1", some "652000", some "C1", some "5"],
    [some "N1", some "655000", some "C1", some "5"]]⟩

/-- C3 (code bug): the parameter-equality check of the NRFreqRelation
checker flags cell `C1` as parameter-mismatched (Value 1, ExtraInfo
"C1") although the old-ARFCN row and the new-ARFCN row agree on every
column outside the ignored identifier/reference set — because the
internal `_arfcn_int_` helper column (old resp. new ARFCN) is retained
in the compared frames — whereas the claim requires a cell to be
flagged iff the attribute-row multisets differ. -/
theorem spec_C3_param_check_flags_equal_rows :
    (processNrFreqRel cfgEx (some tblC3)).get? 7 =
      some ⟨"NR Frequency Inconsistencies", "NRFreqRelation",
        "NR cells with mismatching params between old ARFCN (652000) and the new ARFCN (655000) in NRFreqRelation",
        .int 1, "C1"⟩ ∧
    getCell tblC3 "NodeId" [some "N1", some "652000", some "C1", some "5"]
      = getCell tblC3 "NodeId" [some "N1", some "655000", some "C1", some "5"] ∧
    getCell tblC3 "NRCellCUId" [some "N1", some "652000", some "C1", some "5"]
      = getCell tblC3 "NRCellCUId" [some "N1", some "655000", some "C1", some "5"] ∧
    getCell tblC3 "pZeroNomPuschGrant" [some "N1", some "652000", some "C1", some "5"]
      = getCell tblC3 "pZeroNomPuschGrant" [some "N1", some "655000", some "C1", some "5"] := by
  exact ⟨by decide, by decide, by decide, by decide⟩

end RetuningAudit
